import Mathlib

/-!
# gtkgl — `glarea.c`

A shallow embedding of the interactive transform pipeline of `glarea.c`:

* the process-wide transform state (`rotation_angles`, `scale`) together with
  the function-local statics of `input` (`x`, `y`, `z`, `base_flag`),
* the two event handlers `scroll` and `input`, in exact arithmetic and in
  binary32 (`scroll_f32`, `input_f32`),
* the matrix builder `compute_mvp`.

Number model.  The C code computes with `float` and `double`.  Every finite
value of these types is a rational number, so all state is held in `ℚ`.  The
handlers are embedded twice.  `scroll` and `input` compute with exact rational
arithmetic; the statements about ranges, frames and the drag state machine are
made on them.  `scroll_f32` and `input_f32` round every arithmetic result to
binary32 or binary64 as the C code does; the statements about the exact values
the code stores (saturation of the scale, termination of the loops and the
congruence modulo 360) are made on them.  `compute_mvp` calls `cosf`, `sinf` and
uses the GLib constant `G_PI`; these come from outside the repository and are
taken as parameters over an arbitrary field, so the definition stays executable
and can be instantiated with `Real.cos`, `Real.sin` and `Real.pi`.

GTK calls.  `gtk_widget_queue_draw` and `gtk_adjustment_set_value` are calls
into the toolkit; the embedding appends them, in program order, to the log
`World.calls`.  (The `value-changed` handler `on_axis_value_change` that the
toolkit may run from inside `gtk_adjustment_set_value` stores the very value
that was just written, and is not part of this embedding.)
-/

namespace Glarea

/-! ## Data model -/

/-- Number of rotation axes: the enumerator `N_AXIS`. -/
abbrev N_AXIS : Nat := 3

/-- Enumerator `X_AXIS` (value 0). -/
abbrev X_AXIS : Fin N_AXIS := 0

/-- Enumerator `Y_AXIS` (value 1). -/
abbrev Y_AXIS : Fin N_AXIS := 1

/-- Enumerator `Z_AXIS` (value 2). -/
abbrev Z_AXIS : Fin N_AXIS := 2

/-- The values of GDK's `GdkScrollDirection`. -/
inductive GdkScrollDirection
  | GDK_SCROLL_UP
  | GDK_SCROLL_DOWN
  | GDK_SCROLL_LEFT
  | GDK_SCROLL_RIGHT
  | GDK_SCROLL_SMOOTH
  deriving DecidableEq

/-- The values of GDK's `GdkEventType` that reach `input`, which is connected
to `button-press-event`, `button-release-event` and `motion-notify-event`. -/
inductive GdkEventType
  | GDK_MOTION_NOTIFY
  | GDK_BUTTON_PRESS
  | GDK_2BUTTON_PRESS
  | GDK_3BUTTON_PRESS
  | GDK_BUTTON_RELEASE
  deriving DecidableEq

/-- GDK modifier bit `GDK_BUTTON1_MASK = 1 << 8` (primary button held). -/
abbrev GDK_BUTTON1_MASK : Nat := 256

/-- GDK modifier bit `GDK_BUTTON2_MASK = 1 << 9` (middle button held). -/
abbrev GDK_BUTTON2_MASK : Nat := 512

/-- GDK modifier bit `GDK_BUTTON3_MASK = 1 << 10` (secondary button held). -/
abbrev GDK_BUTTON3_MASK : Nat := 1024

/-- The fields of a `GdkEvent` that `input` reads: the event type and, for a
motion event, the pointer position and the modifier state. -/
structure GdkEvent where
  type : GdkEventType
  x : ℚ
  y : ℚ
  state : Nat

/-- A call into the toolkit made by a handler. -/
inductive GtkCall
  | gtk_adjustment_set_value (axis : Fin N_AXIS) (value : ℚ)
  | gtk_widget_queue_draw
  deriving DecidableEq

/-- The mutable state of the program that the handlers touch: the globals
`rotation_angles` and `scale`, the statics `x`, `y`, `z`, `base_flag` of
`input`, and the log of toolkit calls made so far. -/
structure World where
  rotation_angles : Fin N_AXIS → ℚ
  scale : ℚ
  x : ℚ
  y : ℚ
  z : ℚ
  base_flag : Bool
  calls : List GtkCall

/-- The state at program start: `rotation_angles = { 0.0 }`, `scale = 1.0f`,
`x = y = z = 0.0f`, `base_flag = FALSE`, no toolkit call made. -/
def initial_world : World :=
  { rotation_angles := fun _ => 0
    scale := 1.0
    x := 0.0
    y := 0.0
    z := 0.0
    base_flag := false
    calls := [] }

/-! ## Handlers -/

/-- The handler `scroll`:
`if (direction == GDK_SCROLL_UP) scale -= 0.1f; else if (direction == GDK_SCROLL_DOWN) scale += 0.1f;`
then the clamp `if (scale > 2.0f) scale = 2.0f; else if (scale < 0.1f) scale = 0.1f;`
then `gtk_widget_queue_draw(gl_area)`. -/
def scroll (w : World) (direction : GdkScrollDirection) : World :=
  let scale1 : ℚ :=
    if direction = GdkScrollDirection.GDK_SCROLL_UP then w.scale - 0.1
    else if direction = GdkScrollDirection.GDK_SCROLL_DOWN then w.scale + 0.1
    else w.scale
  let scale2 : ℚ :=
    if scale1 > 2.0 then 2.0
    else if scale1 < 0.1 then 0.1
    else scale1
  { w with scale := scale2, calls := w.calls ++ [GtkCall.gtk_widget_queue_draw] }

/-- The loop `while (a < 0) a += 360.0f;`. -/
def while_lt_zero (a : ℚ) : ℚ :=
  if a < 0 then while_lt_zero (a + 360.0) else a
termination_by (⌈-a / 360⌉).toNat
decreasing_by
  have h1 : (-(a + 360.0)) / 360 = -a / 360 - 1 := by norm_num; ring
  have h2 : (0:ℚ) < -a / 360 := by linarith
  have h3 : 0 < ⌈-a / 360⌉ := Int.ceil_pos.mpr h2
  rw [h1, Int.ceil_sub_one]
  omega

/-- The loop `while (a > 360.0f) a -= 360.0f;`. -/
def while_gt_360 (a : ℚ) : ℚ :=
  if a > 360.0 then while_gt_360 (a - 360.0) else a
termination_by (⌈a / 360⌉).toNat
decreasing_by
  have h1 : (a - 360.0) / 360 = a / 360 - 1 := by norm_num; ring
  have h2 : (0:ℚ) < a / 360 := by linarith
  have h3 : 0 < ⌈a / 360⌉ := Int.ceil_pos.mpr h2
  rw [h1, Int.ceil_sub_one]
  omega

/-- The two loops that follow every `+=` / `-=` on a rotation angle in
`input`, in program order. -/
def normalize (a : ℚ) : ℚ :=
  while_gt_360 (while_lt_zero a)

/-- The local `button_mask` of `input`:
`GDK_BUTTON1_MASK | GDK_BUTTON3_MASK | GDK_BUTTON2_MASK`. -/
abbrev button_mask : Nat :=
  GDK_BUTTON1_MASK ||| GDK_BUTTON3_MASK ||| GDK_BUTTON2_MASK

/-- The handler `input`. -/
def input (w : World) (event : GdkEvent) : World :=
  if event.type = GdkEventType.GDK_BUTTON_RELEASE then
    { w with base_flag := false }
  else if event.type = GdkEventType.GDK_MOTION_NOTIFY then
    if event.state &&& button_mask = GDK_BUTTON1_MASK then
      if !w.base_flag then
        { w with x := event.x, y := event.y, base_flag := true }
      else
        let ry := normalize (w.rotation_angles Y_AXIS + (event.x - w.x))
        let rot1 := Function.update w.rotation_angles Y_AXIS ry
        let rx := normalize (rot1 X_AXIS - (event.y - w.y))
        let rot2 := Function.update rot1 X_AXIS rx
        { w with
          rotation_angles := rot2
          x := event.x
          y := event.y
          calls := w.calls ++
            [GtkCall.gtk_adjustment_set_value Y_AXIS ry,
             GtkCall.gtk_adjustment_set_value X_AXIS rx,
             GtkCall.gtk_widget_queue_draw] }
    else if event.state &&& button_mask = GDK_BUTTON3_MASK then
      if !w.base_flag then
        { w with z := event.x, base_flag := true }
      else
        let rz := normalize (w.rotation_angles Z_AXIS + (event.x - w.z))
        { w with
          rotation_angles := Function.update w.rotation_angles Z_AXIS rz
          z := event.x
          calls := w.calls ++
            [GtkCall.gtk_adjustment_set_value Z_AXIS rz,
             GtkCall.gtk_widget_queue_draw] }
    else w
  else w

/-- Feeding a sequence of scroll events to `scroll`, oldest first. -/
def run_scroll (w : World) (ds : List GdkScrollDirection) : World :=
  ds.foldl scroll w

/-- Feeding a sequence of events to `input`, oldest first. -/
def run_input (w : World) (es : List GdkEvent) : World :=
  es.foldl input w

/-! ## Matrix builder -/

/-- The assignment `res[i] = v` on a buffer of floats. -/
def store {α : Type} (res : Nat → α) (i : Nat) (v : α) : Nat → α :=
  Function.update res i v

/-- The function `compute_mvp`.  `scale` is the global it reads; `res` is the
caller's 16-slot buffer as it is on entry. -/
def compute_mvp {α : Type} [Field α] (cosf sinf : α → α) (G_PI : α) (scale : α)
    (res : Nat → α) (phi theta psi : α) : Nat → α :=
  let x := phi * (G_PI / 180)
  let y := theta * (G_PI / 180)
  let z := psi * (G_PI / 180)
  let c1 := cosf x
  let s1 := sinf x
  let c2 := cosf y
  let s2 := sinf y
  let c3 := cosf z
  let s3 := sinf z
  let c3c2 := c3 * c2
  let s3c1 := s3 * c1
  let c3s2s1 := c3 * s2 * s1
  let s3s1 := s3 * s1
  let c3s2c1 := c3 * s2 * c1
  let s3c2 := s3 * c2
  let c3c1 := c3 * c1
  let s3s2s1 := s3 * s2 * s1
  let c3s1 := c3 * s1
  let s3s2c1 := s3 * s2 * c1
  let c2s1 := c2 * s1
  let c2c1 := c2 * c1
  -- initialize to the identity matrix
  let res := store res 0 1
  let res := store res 4 0
  let res := store res 8 0
  let res := store res 12 0
  let res := store res 1 0
  let res := store res 5 1
  let res := store res 9 0
  let res := store res 13 0
  let res := store res 2 0
  let res := store res 6 0
  let res := store res 10 1
  let res := store res 14 0
  let res := store res 3 0
  let res := store res 7 0
  let res := store res 11 0
  let res := store res 15 1
  -- apply all three rotations
  let res := store res 0 c3c2
  let res := store res 4 (s3c1 + c3s2s1)
  let res := store res 8 (s3s1 - c3s2c1)
  let res := store res 12 0
  let res := store res 1 (-s3c2)
  let res := store res 5 (c3c1 - s3s2s1)
  let res := store res 9 (c3s1 + s3s2c1)
  let res := store res 13 0
  let res := store res 2 s2
  let res := store res 6 (-c2s1)
  let res := store res 10 c2c1
  let res := store res 14 0
  let res := store res 3 0
  let res := store res 7 0
  let res := store res 11 0
  let res := store res 15 1
  -- for (i = 0; i < 15; i++) res[i] = res[i] * scale
  (List.range 15).foldl (fun r i => store r i (r i * scale)) res

/-- The upper-left 3x3 block of a 16-slot buffer read in row-major order:
the entry at row `r`, column `c` is slot `4 * r + c`.  This is how
`draw_triangle` hands the buffer to the shader (`glUniformMatrix4fv` with
`transpose = GL_TRUE`). -/
def block_row_major {α : Type} (res : Nat → α) : Matrix (Fin 3) (Fin 3) α :=
  Matrix.of fun r c => res (4 * r.val + c.val)

/-- The upper-left 3x3 block of a 16-slot buffer read with the entry at row
`r`, column `c` in slot `r + 4 * c`, the way the assignment block of
`compute_mvp` is laid out on the page. -/
def block_col_major {α : Type} (res : Nat → α) : Matrix (Fin 3) (Fin 3) α :=
  Matrix.of fun r c => res (r.val + 4 * c.val)

/-- Rotation about the X axis by `a` radians, acting on column vectors. -/
def Rx {α : Type} [Field α] (cosf sinf : α → α) (a : α) : Matrix (Fin 3) (Fin 3) α :=
  !![1, 0, 0;
     0, cosf a, -sinf a;
     0, sinf a, cosf a]

/-- Rotation about the Y axis by `a` radians, acting on column vectors. -/
def Ry {α : Type} [Field α] (cosf sinf : α → α) (a : α) : Matrix (Fin 3) (Fin 3) α :=
  !![cosf a, 0, sinf a;
     0, 1, 0;
     -sinf a, 0, cosf a]

/-- Rotation about the Z axis by `a` radians, acting on column vectors. -/
def Rz {α : Type} [Field α] (cosf sinf : α → α) (a : α) : Matrix (Fin 3) (Fin 3) α :=
  !![cosf a, -sinf a, 0;
     sinf a, cosf a, 0;
     0, 0, 1]

/-- The right-hand matrix of the comment in `compute_mvp` (the one in `c1`, `s1`). -/
def comment_m1 {α : Type} [Field α] (c1 s1 : α) : Matrix (Fin 3) (Fin 3) α :=
  !![1, 0, 0;
     0, c1, s1;
     0, -s1, c1]

/-- The middle matrix of the comment in `compute_mvp` (the one in `c2`, `s2`). -/
def comment_m2 {α : Type} [Field α] (c2 s2 : α) : Matrix (Fin 3) (Fin 3) α :=
  !![c2, 0, -s2;
     0, 1, 0;
     s2, 0, c2]

/-- The left-hand matrix of the comment in `compute_mvp` (the one in `c3`, `s3`). -/
def comment_m3 {α : Type} [Field α] (c3 s3 : α) : Matrix (Fin 3) (Fin 3) α :=
  !![c3, s3, 0;
     -s3, c3, 0;
     0, 0, 1]

/-- Degrees to radians as `compute_mvp` does it: `a * (G_PI / 180.f)`. -/
def radians {α : Type} [Field α] (G_PI : α) (a : α) : α :=
  a * (G_PI / 180)

/-! ## Binary floating point

The handlers above compute with exact rationals.  The definitions below repeat
`scroll` and `input` with every arithmetic result rounded the
way the C code rounds it: `float` results to binary32, `double` results to
binary64, round to nearest, ties to even, each operation evaluated in its own
type.  Results of magnitude `2^128` and above (`2^1024` for binary64), which the
hardware turns into infinities, are not modelled; no statement below reaches
them. -/

/-- Rounding of a rational to the nearest integer, ties to the even one. -/
def round_half_even (m : ℚ) : ℤ :=
  if m - ⌊m⌋ < 1 / 2 then ⌊m⌋
  else if 1 / 2 < m - ⌊m⌋ then ⌊m⌋ + 1
  else if ⌊m⌋ % 2 = 0 then ⌊m⌋
  else ⌊m⌋ + 1

/-- Exponent of the unit in the last place of `q` in a binary format with
`prec` significand bits whose smallest positive value is `2 ^ emin`. -/
def ulp_exponent (prec : ℕ) (emin : ℤ) (q : ℚ) : ℤ :=
  max (Int.log 2 |q| - ((prec : ℤ) - 1)) emin

/-- Round-to-nearest-even into the binary format with `prec` significand bits
and smallest positive value `2 ^ emin`. -/
def round_float (prec : ℕ) (emin : ℤ) (q : ℚ) : ℚ :=
  (round_half_even (q / 2 ^ ulp_exponent prec emin q) : ℚ) * 2 ^ ulp_exponent prec emin q

/-- Rounding to binary32 (`float`): 24 significand bits, smallest subnormal `2^-149`. -/
def fl32 (q : ℚ) : ℚ := round_float 24 (-149) q

/-- Rounding to binary64 (`double`): 53 significand bits, smallest subnormal `2^-1074`. -/
def fl64 (q : ℚ) : ℚ := round_float 53 (-1074) q

/-- The handler `scroll` in binary32: `scale -= 0.1f` and `scale += 0.1f` are
rounded `float` operations, and `0.1f`, `2.0f` are the `float` values of the
literals. -/
def scroll_f32 (w : World) (direction : GdkScrollDirection) : World :=
  let scale1 : ℚ :=
    if direction = GdkScrollDirection.GDK_SCROLL_UP then fl32 (w.scale - fl32 0.1)
    else if direction = GdkScrollDirection.GDK_SCROLL_DOWN then fl32 (w.scale + fl32 0.1)
    else w.scale
  let scale2 : ℚ :=
    if scale1 > fl32 2.0 then fl32 2.0
    else if scale1 < fl32 0.1 then fl32 0.1
    else scale1
  { w with scale := scale2, calls := w.calls ++ [GtkCall.gtk_widget_queue_draw] }

/-- Feeding a sequence of scroll events to `scroll_f32`, oldest first. -/
def run_scroll_f32 (w : World) (ds : List GdkScrollDirection) : World :=
  ds.foldl scroll_f32 w

/-- The loop `while (a < 0) a += 360.0f;` on a `float`, run for at most `fuel`
passes of its body; `none` when the guard still holds after `fuel` passes. -/
def while_lt_zero_f32 : ℕ → ℚ → Option ℚ
  | fuel, a =>
    if a < 0 then
      match fuel with
      | 0 => none
      | fuel + 1 => while_lt_zero_f32 fuel (fl32 (a + fl32 360.0))
    else some a

/-- The loop `while (a > 360.0f) a -= 360.0f;` on a `float`, run for at most
`fuel` passes of its body; `none` when the guard still holds after `fuel`
passes. -/
def while_gt_360_f32 : ℕ → ℚ → Option ℚ
  | fuel, a =>
    if a > fl32 360.0 then
      match fuel with
      | 0 => none
      | fuel + 1 => while_gt_360_f32 fuel (fl32 (a - fl32 360.0))
    else some a

/-- The two loops in program order, each allowed `fuel` passes. -/
def normalize_f32 (fuel : ℕ) (a : ℚ) : Option ℚ :=
  (while_lt_zero_f32 fuel a).bind (while_gt_360_f32 fuel)

/-- The handler `input` in binary32.  `rotation_angles[i] += (motion->x - x)` is
a `double` subtraction, a `double` addition and a conversion to `float`; the
loops then work on the `float`.  The result is `none` when a loop has not
exited after `fuel` passes. -/
def input_f32 (fuel : ℕ) (w : World) (event : GdkEvent) : Option World :=
  if event.type = GdkEventType.GDK_BUTTON_RELEASE then
    some { w with base_flag := false }
  else if event.type = GdkEventType.GDK_MOTION_NOTIFY then
    if event.state &&& button_mask = GDK_BUTTON1_MASK then
      if !w.base_flag then
        some { w with x := event.x, y := event.y, base_flag := true }
      else
        (normalize_f32 fuel
          (fl32 (fl64 (w.rotation_angles Y_AXIS + fl64 (event.x - w.x))))).bind fun ry =>
        let rot1 := Function.update w.rotation_angles Y_AXIS ry
        (normalize_f32 fuel
          (fl32 (fl64 (rot1 X_AXIS - fl64 (event.y - w.y))))).bind fun rx =>
        let rot2 := Function.update rot1 X_AXIS rx
        some { w with
          rotation_angles := rot2
          x := event.x
          y := event.y
          calls := w.calls ++
            [GtkCall.gtk_adjustment_set_value Y_AXIS ry,
             GtkCall.gtk_adjustment_set_value X_AXIS rx,
             GtkCall.gtk_widget_queue_draw] }
    else if event.state &&& button_mask = GDK_BUTTON3_MASK then
      if !w.base_flag then
        some { w with z := event.x, base_flag := true }
      else
        (normalize_f32 fuel
          (fl32 (fl64 (w.rotation_angles Z_AXIS + fl64 (event.x - w.z))))).bind fun rz =>
        some { w with
          rotation_angles := Function.update w.rotation_angles Z_AXIS rz
          z := event.x
          calls := w.calls ++
            [GtkCall.gtk_adjustment_set_value Z_AXIS rz,
             GtkCall.gtk_widget_queue_draw] }
    else some w
  else some w

/-! ## Concrete inputs -/

/-- A motion sample at `(x, y)` with only the primary button held. -/
def motion_primary (x y : ℚ) : GdkEvent :=
  { type := GdkEventType.GDK_MOTION_NOTIFY, x := x, y := y, state := GDK_BUTTON1_MASK }

/-- A motion sample at `(x, y)` with the primary and the middle button held. -/
def motion_primary_middle (x y : ℚ) : GdkEvent :=
  { type := GdkEventType.GDK_MOTION_NOTIFY, x := x, y := y,
    state := GDK_BUTTON1_MASK ||| GDK_BUTTON2_MASK }

/-- A button press at `(x, y)`. -/
def button_press (x y : ℚ) : GdkEvent :=
  { type := GdkEventType.GDK_BUTTON_PRESS, x := x, y := y, state := 0 }

/-- A button release at `(x, y)`. -/
def button_release (x y : ℚ) : GdkEvent :=
  { type := GdkEventType.GDK_BUTTON_RELEASE, x := x, y := y, state := 0 }

/-- The start state after a first primary-button motion sample at `(0, 0)`:
the anchor `(0, 0)` is recorded and `base_flag` is set. -/
def dragging_world : World :=
  input initial_world (motion_primary 0 0)

/-! ## The normalisation loops -/

theorem while_lt_zero_neg {a : ℚ} (h : a < 0) :
    while_lt_zero a = while_lt_zero (a + 360) := by
  rw [while_lt_zero, if_pos h]
  norm_num

theorem while_lt_zero_nonneg {a : ℚ} (h : 0 ≤ a) : while_lt_zero a = a := by
  rw [while_lt_zero, if_neg (not_lt.mpr h)]

theorem while_gt_360_gt {a : ℚ} (h : 360 < a) :
    while_gt_360 a = while_gt_360 (a - 360) := by
  have h' : a > 360.0 := by norm_num; exact h
  rw [while_gt_360, if_pos h']
  norm_num

theorem while_gt_360_le {a : ℚ} (h : a ≤ 360) : while_gt_360 a = a := by
  have h' : ¬ a > 360.0 := by norm_num; exact h
  rw [while_gt_360, if_neg h']

/-- The first loop runs its body exactly `m` times: the guard `a < 0` holds
before each of the `m` passes and fails after the last one. -/
theorem while_lt_zero_trace (a : ℚ) :
    ∃ m : ℕ, (∀ i : ℕ, i < m → a + 360 * (i : ℚ) < 0) ∧ 0 ≤ a + 360 * (m : ℚ) ∧
      while_lt_zero a = a + 360 * (m : ℚ) := by
  induction a using while_lt_zero.induct with
  | case1 a h ih =>
    have h0 : a < 0 := h
    obtain ⟨m, hm1, hm2, hm3⟩ := ih
    refine ⟨m + 1, ?_, ?_, ?_⟩
    · intro i hi
      rcases Nat.eq_zero_or_pos i with h1 | h1
      · subst h1; simpa using h0
      · obtain ⟨j, rfl⟩ : ∃ j, i = j + 1 := ⟨i - 1, by omega⟩
        have := hm1 j (by omega)
        push_cast
        norm_num at this
        linarith
    · push_cast; norm_num at hm2; linarith
    · rw [while_lt_zero_neg h0]
      norm_num at hm3
      rw [hm3]; push_cast; ring
  | case2 a h =>
    have h0 : 0 ≤ a := not_lt.mp h
    exact ⟨0, by intro i hi; omega, by simpa using h0, by simp [while_lt_zero_nonneg h0]⟩

/-- The second loop runs its body exactly `n` times: the guard `a > 360` holds
before each of the `n` passes and fails after the last one. -/
theorem while_gt_360_trace (a : ℚ) :
    ∃ n : ℕ, (∀ j : ℕ, j < n → 360 < a - 360 * (j : ℚ)) ∧ a - 360 * (n : ℚ) ≤ 360 ∧
      while_gt_360 a = a - 360 * (n : ℚ) := by
  induction a using while_gt_360.induct with
  | case1 a h ih =>
    have h0 : 360 < a := by norm_num at h; exact h
    obtain ⟨n, hn1, hn2, hn3⟩ := ih
    refine ⟨n + 1, ?_, ?_, ?_⟩
    · intro j hj
      rcases Nat.eq_zero_or_pos j with h1 | h1
      · subst h1; simpa using h0
      · obtain ⟨k, rfl⟩ : ∃ k, j = k + 1 := ⟨j - 1, by omega⟩
        have := hn1 k (by omega)
        push_cast
        norm_num at this
        linarith
    · push_cast; norm_num at hn2; linarith
    · rw [while_gt_360_gt h0]
      norm_num at hn3
      rw [hn3]; push_cast; ring
  | case2 a h =>
    have h0 : a ≤ 360 := by norm_num at h; exact h
    exact ⟨0, by intro i hi; omega, by simpa using h0, by simp [while_gt_360_le h0]⟩

theorem normalize_id {a : ℚ} (h0 : 0 ≤ a) (h1 : a ≤ 360) : normalize a = a := by
  rw [normalize, while_lt_zero_nonneg h0, while_gt_360_le h1]

/-- Both loops exit: the first after `m` passes, the second after `n`. -/
theorem normalize_trace (a : ℚ) :
    ∃ m n : ℕ,
      (∀ i : ℕ, i < m → a + 360 * (i : ℚ) < 0) ∧ 0 ≤ a + 360 * (m : ℚ) ∧
      (∀ j : ℕ, j < n → 360 < a + 360 * (m : ℚ) - 360 * (j : ℚ)) ∧
      a + 360 * (m : ℚ) - 360 * (n : ℚ) ≤ 360 ∧
      normalize a = a + 360 * (m : ℚ) - 360 * (n : ℚ) := by
  obtain ⟨m, hm1, hm2, hm3⟩ := while_lt_zero_trace a
  obtain ⟨n, hn1, hn2, hn3⟩ := while_gt_360_trace (while_lt_zero a)
  have hn4 : normalize a = while_lt_zero a - 360 * (n : ℚ) := hn3
  rw [hm3] at hn1 hn2 hn4
  exact ⟨m, n, hm1, hm2, hn1, hn2, hn4⟩

/-! ## The handler `input`, branch by branch -/

theorem input_release (w : World) (e : GdkEvent)
    (h : e.type = GdkEventType.GDK_BUTTON_RELEASE) :
    input w e = { w with base_flag := false } := by
  simp [input, h]

theorem input_other (w : World) (e : GdkEvent)
    (h1 : e.type ≠ GdkEventType.GDK_BUTTON_RELEASE)
    (h2 : e.type ≠ GdkEventType.GDK_MOTION_NOTIFY) :
    input w e = w := by
  simp [input, h1, h2]

theorem input_first_primary (w : World) (e : GdkEvent)
    (hflag : w.base_flag = false) (htype : e.type = GdkEventType.GDK_MOTION_NOTIFY)
    (hmask : e.state &&& button_mask = GDK_BUTTON1_MASK) :
    input w e = { w with x := e.x, y := e.y, base_flag := true } := by
  simp [input, hflag, htype, hmask]

theorem input_first_secondary (w : World) (e : GdkEvent)
    (hflag : w.base_flag = false) (htype : e.type = GdkEventType.GDK_MOTION_NOTIFY)
    (hmask : e.state &&& button_mask = GDK_BUTTON3_MASK) :
    input w e = { w with z := e.x, base_flag := true } := by
  simp [input, hflag, htype, hmask]

theorem input_drag_primary (w : World) (e : GdkEvent)
    (hflag : w.base_flag = true) (htype : e.type = GdkEventType.GDK_MOTION_NOTIFY)
    (hmask : e.state &&& button_mask = GDK_BUTTON1_MASK) :
    input w e =
      { w with
        rotation_angles :=
          Function.update
            (Function.update w.rotation_angles Y_AXIS
              (normalize (w.rotation_angles Y_AXIS + (e.x - w.x))))
            X_AXIS (normalize (w.rotation_angles X_AXIS - (e.y - w.y)))
        x := e.x
        y := e.y
        calls := w.calls ++
          [GtkCall.gtk_adjustment_set_value Y_AXIS
              (normalize (w.rotation_angles Y_AXIS + (e.x - w.x))),
           GtkCall.gtk_adjustment_set_value X_AXIS
              (normalize (w.rotation_angles X_AXIS - (e.y - w.y))),
           GtkCall.gtk_widget_queue_draw] } := by
  simp [input, hflag, htype, hmask, Function.update]

theorem input_drag_secondary (w : World) (e : GdkEvent)
    (hflag : w.base_flag = true) (htype : e.type = GdkEventType.GDK_MOTION_NOTIFY)
    (hmask : e.state &&& button_mask = GDK_BUTTON3_MASK) :
    input w e =
      { w with
        rotation_angles :=
          Function.update w.rotation_angles Z_AXIS
            (normalize (w.rotation_angles Z_AXIS + (e.x - w.z)))
        z := e.x
        calls := w.calls ++
          [GtkCall.gtk_adjustment_set_value Z_AXIS
              (normalize (w.rotation_angles Z_AXIS + (e.x - w.z))),
           GtkCall.gtk_widget_queue_draw] } := by
  simp [input, hflag, htype, hmask]

theorem axis_ne :
    Y_AXIS ≠ X_AXIS ∧ Z_AXIS ≠ X_AXIS ∧ Z_AXIS ≠ Y_AXIS ∧
    X_AXIS ≠ Y_AXIS ∧ X_AXIS ≠ Z_AXIS ∧ Y_AXIS ≠ Z_AXIS := by
  decide

theorem normalize_congruent (a : ℚ) : ∃ k : ℤ, normalize a = a + 360 * (k : ℚ) := by
  obtain ⟨m, n, -, -, -, -, h⟩ := normalize_trace a
  refine ⟨(m : ℤ) - (n : ℤ), ?_⟩
  rw [h]; push_cast; ring

theorem dragging_world_eq :
    dragging_world = { initial_world with x := 0, y := 0, base_flag := true } := by
  rw [dragging_world, input_first_primary initial_world (motion_primary 0 0) rfl rfl (by decide)]
  rfl

/-! ## C1 — range of the angle stored by a drag step -/

theorem scroll_up_scale (w : World) :
    (scroll w GdkScrollDirection.GDK_SCROLL_UP).scale =
      if w.scale - 1 / 10 > 2 then 2
      else if w.scale - 1 / 10 < 1 / 10 then 1 / 10 else w.scale - 1 / 10 := by
  simp only [scroll, if_true]
  norm_num

theorem scroll_down_scale (w : World) :
    (scroll w GdkScrollDirection.GDK_SCROLL_DOWN).scale =
      if w.scale + 1 / 10 > 2 then 2
      else if w.scale + 1 / 10 < 1 / 10 then 1 / 10 else w.scale + 1 / 10 := by
  have hne : ¬ GdkScrollDirection.GDK_SCROLL_DOWN = GdkScrollDirection.GDK_SCROLL_UP := by
    decide
  simp only [scroll, if_neg hne, if_true]
  norm_num

theorem scroll_other_scale (w : World) (d : GdkScrollDirection)
    (h1 : d ≠ GdkScrollDirection.GDK_SCROLL_UP) (h2 : d ≠ GdkScrollDirection.GDK_SCROLL_DOWN) :
    (scroll w d).scale =
      if w.scale > 2 then 2 else if w.scale < 1 / 10 then 1 / 10 else w.scale := by
  simp only [scroll, if_neg h1, if_neg h2]
  norm_num

/-- One scroll event of any direction keeps the scale in `[1/10, 2]`. -/
theorem scroll_keeps_range (w : World) (d : GdkScrollDirection)
    (h1 : 1 / 10 ≤ w.scale) (h2 : w.scale ≤ 2) :
    1 / 10 ≤ (scroll w d).scale ∧ (scroll w d).scale ≤ 2 := by
  by_cases hu : d = GdkScrollDirection.GDK_SCROLL_UP
  · subst hu
    rw [scroll_up_scale]
    split_ifs <;> constructor <;> linarith
  · by_cases hd : d = GdkScrollDirection.GDK_SCROLL_DOWN
    · subst hd
      rw [scroll_down_scale]
      split_ifs <;> constructor <;> linarith
    · rw [scroll_other_scale w d hu hd]
      split_ifs <;> constructor <;> linarith

theorem run_scroll_keeps_range (ds : List GdkScrollDirection) :
    ∀ w : World, 1 / 10 ≤ w.scale → w.scale ≤ 2 →
      1 / 10 ≤ (run_scroll w ds).scale ∧ (run_scroll w ds).scale ≤ 2 := by
  induction ds with
  | nil => intro w h1 h2; exact ⟨h1, h2⟩
  | cons d ds ih =>
    intro w h1 h2
    have h := scroll_keeps_range w d h1 h2
    exact ih (scroll w d) h.1 h.2

theorem lit_tenth : (0.1 : ℚ) = 1 / 10 := by norm_num

theorem lit_two : (2.0 : ℚ) = 2 := by norm_num

/-! ## C2 — the scale stays in `[0.1, 2.0]` -/

/-- C2: starting from a scale in `[0.1, 2.0]`, after every event of any finite
sequence of scroll events (of any direction) the scale is in `[0.1, 2.0]`:
the bound holds after the first `n` events, for every `n`. -/
theorem scroll_sequence_scale_in_range (w : World) (ds : List GdkScrollDirection)
    (h1 : 0.1 ≤ w.scale) (h2 : w.scale ≤ 2.0) (n : ℕ) :
    0.1 ≤ (run_scroll w (ds.take n)).scale ∧ (run_scroll w (ds.take n)).scale ≤ 2.0 := by
  rw [lit_tenth] at h1 ⊢
  rw [lit_two] at h2 ⊢
  exact run_scroll_keeps_range (ds.take n) w h1 h2

/-- Witness for C2: from the initial scale `1.0`, the events up, left, down,
down, observed after the first three. -/
theorem scroll_sequence_scale_in_range_witness :
    (0.1 ≤ initial_world.scale ∧ initial_world.scale ≤ 2.0) ∧
    (0.1 ≤ (run_scroll initial_world
        ([GdkScrollDirection.GDK_SCROLL_UP, GdkScrollDirection.GDK_SCROLL_LEFT,
          GdkScrollDirection.GDK_SCROLL_DOWN, GdkScrollDirection.GDK_SCROLL_DOWN].take 3)).scale ∧
      (run_scroll initial_world
        ([GdkScrollDirection.GDK_SCROLL_UP, GdkScrollDirection.GDK_SCROLL_LEFT,
          GdkScrollDirection.GDK_SCROLL_DOWN, GdkScrollDirection.GDK_SCROLL_DOWN].take 3)).scale
        ≤ 2.0) :=
  ⟨⟨by norm_num [initial_world], by norm_num [initial_world]⟩,
    scroll_sequence_scale_in_range initial_world _
      (by norm_num [initial_world]) (by norm_num [initial_world]) 3⟩

/-! ## C6 — what `scroll` leaves alone -/

/-- C6 (as stated, refuted): one up event in the start state.  No toolkit call
has been made before it; after it the log holds one `gtk_widget_queue_draw`, so
the handler does request a redraw. -/
theorem scroll_queues_draw :
    initial_world.calls = [] ∧
    (scroll initial_world GdkScrollDirection.GDK_SCROLL_UP).calls =
      [GtkCall.gtk_widget_queue_draw] ∧
    (scroll initial_world GdkScrollDirection.GDK_SCROLL_UP).calls ≠ initial_world.calls := by
  refine ⟨rfl, rfl, ?_⟩
  simp [scroll, initial_world]

/-- C6 (amended): for every state and every scroll direction, `scroll` changes at
most the scale (the three rotation angles, the drag anchors and the drag flag
keep their values) and makes exactly one toolkit call, the redraw request. -/
theorem scroll_frame (w : World) (d : GdkScrollDirection) :
    (scroll w d).rotation_angles = w.rotation_angles ∧
    (scroll w d).x = w.x ∧ (scroll w d).y = w.y ∧ (scroll w d).z = w.z ∧
    (scroll w d).base_flag = w.base_flag ∧
    (scroll w d).calls = w.calls ++ [GtkCall.gtk_widget_queue_draw] :=
  ⟨rfl, rfl, rfl, rfl, rfl, rfl⟩

/-! ## The matrix builder, slot by slot -/

/-- Every slot of the output of `compute_mvp`, in slot order. -/
theorem compute_mvp_slots {α : Type} [Field α] (cosf sinf : α → α) (G_PI scale : α)
    (res : Nat → α) (phi theta psi : α) :
    let c1 := cosf (radians G_PI phi)
    let s1 := sinf (radians G_PI phi)
    let c2 := cosf (radians G_PI theta)
    let s2 := sinf (radians G_PI theta)
    let c3 := cosf (radians G_PI psi)
    let s3 := sinf (radians G_PI psi)
    let out := compute_mvp cosf sinf G_PI scale res phi theta psi
    out 0 = c3 * c2 * scale ∧ out 1 = -(s3 * c2) * scale ∧ out 2 = s2 * scale ∧
    out 3 = 0 ∧
    out 4 = (s3 * c1 + c3 * s2 * s1) * scale ∧ out 5 = (c3 * c1 - s3 * s2 * s1) * scale ∧
    out 6 = -(c2 * s1) * scale ∧ out 7 = 0 ∧
    out 8 = (s3 * s1 - c3 * s2 * c1) * scale ∧ out 9 = (c3 * s1 + s3 * s2 * c1) * scale ∧
    out 10 = c2 * c1 * scale ∧ out 11 = 0 ∧
    out 12 = 0 ∧ out 13 = 0 ∧ out 14 = 0 ∧ out 15 = 1 := by
  simp [compute_mvp, radians, store, List.range, List.range.loop, Function.update]

/-! ## C8 — the scale multiplies slots 0..14 -/

/-- C8: the output of `compute_mvp` at scale `s` is its output at scale `1` with
each of the slots 0..14 multiplied by `s`; slot 15 is `1` whatever `s` is; slots
3, 7, 11, 12, 13 and 14 are `0` for every `s`. -/
theorem compute_mvp_scales_first_fifteen {α : Type} [Field α] (cosf sinf : α → α)
    (G_PI s : α) (res res1 : Nat → α) (phi theta psi : α) :
    (∀ i : Fin 15, compute_mvp cosf sinf G_PI s res phi theta psi i.val =
      compute_mvp cosf sinf G_PI 1 res1 phi theta psi i.val * s) ∧
    compute_mvp cosf sinf G_PI s res phi theta psi 15 = 1 ∧
    compute_mvp cosf sinf G_PI s res phi theta psi 3 = 0 ∧
    compute_mvp cosf sinf G_PI s res phi theta psi 7 = 0 ∧
    compute_mvp cosf sinf G_PI s res phi theta psi 11 = 0 ∧
    compute_mvp cosf sinf G_PI s res phi theta psi 12 = 0 ∧
    compute_mvp cosf sinf G_PI s res phi theta psi 13 = 0 ∧
    compute_mvp cosf sinf G_PI s res phi theta psi 14 = 0 := by
  obtain ⟨a0, a1, a2, a3, a4, a5, a6, a7, a8, a9, a10, a11, a12, a13, a14, a15⟩ :=
    compute_mvp_slots cosf sinf G_PI s res phi theta psi
  obtain ⟨b0, b1, b2, b3, b4, b5, b6, b7, b8, b9, b10, b11, b12, b13, b14, -⟩ :=
    compute_mvp_slots cosf sinf G_PI 1 res1 phi theta psi
  refine ⟨?_, a15, a3, a7, a11, a12, a13, a14⟩
  intro i
  fin_cases i
  · simp only [a0, b0]; ring
  · simp only [a1, b1]; ring
  · simp only [a2, b2]; ring
  · simp only [a3, b3]; ring
  · simp only [a4, b4]; ring
  · simp only [a5, b5]; ring
  · simp only [a6, b6]; ring
  · simp only [a7, b7]; ring
  · simp only [a8, b8]; ring
  · simp only [a9, b9]; ring
  · simp only [a10, b10]; ring
  · simp only [a11, b11]; ring
  · simp only [a12, b12]; ring
  · simp only [a13, b13]; ring
  · simp only [a14, b14]; ring

/-! ## C10 — the assignment block is the product written in the comment -/

/-- C10: at scale `1`, the matrix laid out with entry (row `r`, column `c`) in
slot `r + 4 * c` has as its upper-left 3x3 block the product, in the written
order, of the three matrices of the comment in `compute_mvp`; slots 3, 7, 11
(fourth row), 12, 13, 14 (fourth column) are `0` and slot 15 is `1`. -/
theorem compute_mvp_matches_comment {α : Type} [Field α] (cosf sinf : α → α)
    (G_PI : α) (res : Nat → α) (phi theta psi : α) :
    block_col_major (compute_mvp cosf sinf G_PI 1 res phi theta psi) =
      comment_m3 (cosf (radians G_PI psi)) (sinf (radians G_PI psi)) *
      comment_m2 (cosf (radians G_PI theta)) (sinf (radians G_PI theta)) *
      comment_m1 (cosf (radians G_PI phi)) (sinf (radians G_PI phi)) ∧
    compute_mvp cosf sinf G_PI 1 res phi theta psi 3 = 0 ∧
    compute_mvp cosf sinf G_PI 1 res phi theta psi 7 = 0 ∧
    compute_mvp cosf sinf G_PI 1 res phi theta psi 11 = 0 ∧
    compute_mvp cosf sinf G_PI 1 res phi theta psi 12 = 0 ∧
    compute_mvp cosf sinf G_PI 1 res phi theta psi 13 = 0 ∧
    compute_mvp cosf sinf G_PI 1 res phi theta psi 14 = 0 ∧
    compute_mvp cosf sinf G_PI 1 res phi theta psi 15 = 1 := by
  obtain ⟨a0, a1, a2, a3, a4, a5, a6, a7, a8, a9, a10, a11, a12, a13, a14, a15⟩ :=
    compute_mvp_slots cosf sinf G_PI 1 res phi theta psi
  refine ⟨?_, a3, a7, a11, a12, a13, a14, a15⟩
  ext r c
  fin_cases r <;> fin_cases c <;>
    simp [block_col_major, comment_m1, comment_m2, comment_m3, Matrix.mul_apply,
      Fin.sum_univ_three, Matrix.vecHead, Matrix.vecTail,
      a0, a1, a2, a4, a5, a6, a8, a9, a10] <;>
    ring

/-! ## C3 — composition order of the row-major block -/

/-- C3 (amended): for all angles and every scale `s`, the upper-left 3x3 block of
the output of `compute_mvp`, read in row-major order, is `s` times
`Rx(phi) * Ry(theta) * Rz(psi)`: applied to a column vector it rotates about the
Z axis first, then about Y, then about X. -/
theorem compute_mvp_row_major_block {α : Type} [Field α] (cosf sinf : α → α)
    (G_PI s : α) (res : Nat → α) (phi theta psi : α) :
    block_row_major (compute_mvp cosf sinf G_PI s res phi theta psi) =
      s • (Rx cosf sinf (radians G_PI phi) * Ry cosf sinf (radians G_PI theta) *
        Rz cosf sinf (radians G_PI psi)) := by
  obtain ⟨a0, a1, a2, a3, a4, a5, a6, a7, a8, a9, a10, a11, a12, a13, a14, a15⟩ :=
    compute_mvp_slots cosf sinf G_PI s res phi theta psi
  ext r c
  fin_cases r <;> fin_cases c <;>
    simp [block_row_major, Rx, Ry, Rz, Matrix.mul_apply,
      Fin.sum_univ_three, Matrix.vecHead, Matrix.vecTail,
      a0, a1, a2, a4, a5, a6, a8, a9, a10] <;>
    ring

theorem cos_ninety : Real.cos (radians Real.pi 90) = 0 := by
  have h : radians Real.pi 90 = Real.pi / 2 := by unfold radians; ring
  rw [h, Real.cos_pi_div_two]

theorem sin_ninety : Real.sin (radians Real.pi 90) = 1 := by
  have h : radians Real.pi 90 = Real.pi / 2 := by unfold radians; ring
  rw [h, Real.sin_pi_div_two]

theorem cos_zero_deg : Real.cos (radians Real.pi 0) = 1 := by
  simp [radians]

theorem sin_zero_deg : Real.sin (radians Real.pi 0) = 0 := by
  simp [radians]

/-- C3 (as stated, refuted): with `cosf`, `sinf`, `G_PI` the real cosine, sine
and pi, at `phi = 90`, `theta = 0`, `psi = 90` and scale `1` the row-major block
of the output has `-1` at row 0, column 1, whereas `Rz(psi) * Ry(theta) * Rx(phi)`
has `0` there, both for the usual rotation matrices and for the three matrices
written in the comment of `compute_mvp`. -/
theorem compute_mvp_row_major_not_zyx :
    block_row_major (compute_mvp Real.cos Real.sin Real.pi 1 (fun _ => 0) 90 0 90) 0 1 = -1 ∧
    ((1 : ℝ) • (Rz Real.cos Real.sin (radians Real.pi 90) *
      Ry Real.cos Real.sin (radians Real.pi 0) *
      Rx Real.cos Real.sin (radians Real.pi 90))) 0 1 = 0 ∧
    ((1 : ℝ) • (comment_m3 (Real.cos (radians Real.pi 90)) (Real.sin (radians Real.pi 90)) *
      comment_m2 (Real.cos (radians Real.pi 0)) (Real.sin (radians Real.pi 0)) *
      comment_m1 (Real.cos (radians Real.pi 90)) (Real.sin (radians Real.pi 90)))) 0 1 = 0 ∧
    block_row_major (compute_mvp Real.cos Real.sin Real.pi 1 (fun _ => 0) 90 0 90) ≠
      (1 : ℝ) • (Rz Real.cos Real.sin (radians Real.pi 90) *
        Ry Real.cos Real.sin (radians Real.pi 0) *
        Rx Real.cos Real.sin (radians Real.pi 90)) := by
  have hA : block_row_major
      (compute_mvp Real.cos Real.sin Real.pi 1 (fun _ => 0) 90 0 90) 0 1 = -1 := by
    obtain ⟨-, a1, -⟩ := compute_mvp_slots Real.cos Real.sin Real.pi 1 (fun _ => 0) 90 0 90
    simp [block_row_major, a1, cos_ninety, sin_ninety, cos_zero_deg, sin_zero_deg]
  have hB : ((1 : ℝ) • (Rz Real.cos Real.sin (radians Real.pi 90) *
      Ry Real.cos Real.sin (radians Real.pi 0) *
      Rx Real.cos Real.sin (radians Real.pi 90))) 0 1 = 0 := by
    simp [Rx, Ry, Rz, Matrix.mul_apply, Fin.sum_univ_three, Matrix.vecHead, Matrix.vecTail,
      cos_ninety, sin_ninety, cos_zero_deg, sin_zero_deg]
  refine ⟨hA, hB, ?_, ?_⟩
  · simp [comment_m1, comment_m2, comment_m3, Matrix.mul_apply, Fin.sum_univ_three,
      Matrix.vecHead, Matrix.vecTail, cos_ninety, sin_ninety, cos_zero_deg, sin_zero_deg]
  · intro h
    have h01 := congrFun (congrFun h 0) 1
    rw [hA, hB] at h01
    norm_num at h01

/-! ## C9 — nothing is applied before an anchor is recorded -/

theorem input_idle_frame (w : World) (e : GdkEvent) (hflag : w.base_flag = false) :
    (input w e).rotation_angles = w.rotation_angles ∧ (input w e).scale = w.scale ∧
    (input w e).calls = w.calls := by
  by_cases h1 : e.type = GdkEventType.GDK_BUTTON_RELEASE
  · rw [input_release w e h1]; exact ⟨rfl, rfl, rfl⟩
  · by_cases h2 : e.type = GdkEventType.GDK_MOTION_NOTIFY
    · by_cases m1 : e.state &&& button_mask = GDK_BUTTON1_MASK
      · rw [input_first_primary w e hflag h2 m1]; exact ⟨rfl, rfl, rfl⟩
      · by_cases m3 : e.state &&& button_mask = GDK_BUTTON3_MASK
        · rw [input_first_secondary w e hflag h2 m3]; exact ⟨rfl, rfl, rfl⟩
        · simp [input, h2, m1, m3]
    · rw [input_other w e h1 h2]; exact ⟨rfl, rfl, rfl⟩

theorem set_flag_false_eq (w : World) (h : w.base_flag = false) :
    { w with base_flag := false } = w := by
  cases w
  simp_all

/-- C9 (as stated, refuted): the first motion sample after start-up, at
`(10, 10)`, with the primary and the middle button held.  Exactly one of the
primary and secondary buttons is held (the primary bit is set, the secondary bit
is clear), yet `input` neither records the position as the anchor (`x` stays `0`)
nor enters Dragging (`base_flag` stays clear): the sample is ignored because the
masked state is not `GDK_BUTTON1_MASK` alone. -/
theorem first_motion_with_middle_ignored :
    initial_world.base_flag = false ∧
    (motion_primary_middle 10 10).type = GdkEventType.GDK_MOTION_NOTIFY ∧
    (motion_primary_middle 10 10).state &&& GDK_BUTTON1_MASK = GDK_BUTTON1_MASK ∧
    (motion_primary_middle 10 10).state &&& GDK_BUTTON3_MASK = 0 ∧
    (input initial_world (motion_primary_middle 10 10)).base_flag = false ∧
    (input initial_world (motion_primary_middle 10 10)).x ≠ (motion_primary_middle 10 10).x := by
  have h : input initial_world (motion_primary_middle 10 10) = initial_world := by
    have m1 : ¬ ((motion_primary_middle 10 10).state &&& button_mask = GDK_BUTTON1_MASK) := by
      decide
    have m3 : ¬ ((motion_primary_middle 10 10).state &&& button_mask = GDK_BUTTON3_MASK) := by
      decide
    have ht : (motion_primary_middle 10 10).type = GdkEventType.GDK_MOTION_NOTIFY := rfl
    simp [input, ht, m1, m3]
  refine ⟨rfl, rfl, by decide, by decide, ?_, ?_⟩
  · rw [h]; rfl
  · rw [h]; norm_num [initial_world, motion_primary_middle]

/-- C9 (amended): (1) while no anchor is recorded (`base_flag` clear), no event
of any kind changes a rotation angle or the scale or makes a toolkit call;
(2) a button press changes nothing at all; (3) a button release only clears
`base_flag` (back to Idle); (4) with `base_flag` clear, as at start-up and after a
release, a motion sample whose masked state is the primary button alone records
`(x, y)` as the anchor and sets `base_flag`, changing nothing else; (5) likewise
with the secondary button alone, recording `z`; (6) `base_flag` is clear at
start-up; (7) a press followed at once by a release leaves every angle, the
scale and the call log as they were, and leaves an Idle tracker wholly
unchanged. -/
theorem no_delta_before_anchor :
    (∀ (w : World) (e : GdkEvent), w.base_flag = false →
      (input w e).rotation_angles = w.rotation_angles ∧ (input w e).scale = w.scale ∧
      (input w e).calls = w.calls) ∧
    (∀ (w : World) (e : GdkEvent),
      (e.type = GdkEventType.GDK_BUTTON_PRESS ∨ e.type = GdkEventType.GDK_2BUTTON_PRESS ∨
        e.type = GdkEventType.GDK_3BUTTON_PRESS) → input w e = w) ∧
    (∀ (w : World) (e : GdkEvent), e.type = GdkEventType.GDK_BUTTON_RELEASE →
      input w e = { w with base_flag := false }) ∧
    (∀ (w : World) (e : GdkEvent), w.base_flag = false →
      e.type = GdkEventType.GDK_MOTION_NOTIFY →
      e.state &&& button_mask = GDK_BUTTON1_MASK →
      input w e = { w with x := e.x, y := e.y, base_flag := true }) ∧
    (∀ (w : World) (e : GdkEvent), w.base_flag = false →
      e.type = GdkEventType.GDK_MOTION_NOTIFY →
      e.state &&& button_mask = GDK_BUTTON3_MASK →
      input w e = { w with z := e.x, base_flag := true }) ∧
    initial_world.base_flag = false ∧
    (∀ (w : World) (p r : GdkEvent), p.type = GdkEventType.GDK_BUTTON_PRESS →
      r.type = GdkEventType.GDK_BUTTON_RELEASE →
      run_input w [p, r] = { w with base_flag := false } ∧
      (w.base_flag = false → run_input w [p, r] = w)) := by
  refine ⟨input_idle_frame, ?_, input_release, input_first_primary, input_first_secondary,
    rfl, ?_⟩
  · intro w e h
    apply input_other
    · rcases h with h | h | h <;> rw [h] <;> decide
    · rcases h with h | h | h <;> rw [h] <;> decide
  · intro w p r hp hr
    have hrun : run_input w [p, r] = input (input w p) r := rfl
    have h1 : input w p = w := input_other w p (by rw [hp]; decide) (by rw [hp]; decide)
    rw [hrun, h1, input_release w r hr]
    exact ⟨rfl, fun h => set_flag_false_eq w h⟩

/-- Witness for C9 (amended): at start-up, a press and a release at `(3, 4)`,
and a first primary-button motion sample at `(10, 10)`. -/
theorem no_delta_before_anchor_witness :
    (initial_world.base_flag = false ∧
      (motion_primary 10 10).type = GdkEventType.GDK_MOTION_NOTIFY ∧
      (motion_primary 10 10).state &&& button_mask = GDK_BUTTON1_MASK ∧
      input initial_world (motion_primary 10 10) =
        { initial_world with x := 10, y := 10, base_flag := true }) ∧
    ((button_press 3 4).type = GdkEventType.GDK_BUTTON_PRESS ∧
      (button_release 3 4).type = GdkEventType.GDK_BUTTON_RELEASE ∧
      run_input initial_world [button_press 3 4, button_release 3 4] = initial_world) :=
  ⟨⟨rfl, rfl, by decide,
      no_delta_before_anchor.2.2.2.1 initial_world (motion_primary 10 10) rfl rfl (by decide)⟩,
    ⟨rfl, rfl,
      (no_delta_before_anchor.2.2.2.2.2.2 initial_world (button_press 3 4) (button_release 3 4)
        rfl rfl).2 rfl⟩⟩

/-! ## Rounding to a binary format -/

theorem round_half_even_near (m : ℚ) (n : ℤ) (h : |m - n| < 1 / 2) : round_half_even m = n := by
  have h1 := abs_lt.mp h
  unfold round_half_even
  by_cases c : (n : ℚ) ≤ m
  · have hf : ⌊m⌋ = n := by
      rw [Int.floor_eq_iff]; constructor <;> linarith [h1.1, h1.2]
    rw [hf, if_pos (by linarith [h1.2])]
  · push_neg at c
    have hf : ⌊m⌋ = n - 1 := by
      rw [Int.floor_eq_iff]; push_cast; constructor <;> linarith [h1.1, h1.2]
    rw [hf]
    push_cast
    rw [if_neg (by linarith [h1.1]), if_pos (by linarith [h1.1])]
    ring

theorem round_half_even_int (n : ℤ) : round_half_even (n : ℚ) = n :=
  round_half_even_near n n (by simp)

theorem round_half_even_bounds (m : ℚ) :
    ⌊m⌋ ≤ round_half_even m ∧ round_half_even m ≤ ⌊m⌋ + 1 ∧
    (round_half_even m = ⌊m⌋ + 1 → 1 / 2 ≤ m - ⌊m⌋) ∧
    (round_half_even m = ⌊m⌋ → m - ⌊m⌋ ≤ 1 / 2) := by
  unfold round_half_even
  split_ifs with h1 h2 h3
  · exact ⟨le_refl _, by omega, fun h => by omega, fun _ => h1.le⟩
  · exact ⟨by omega, le_refl _, fun _ => h2.le, fun h => by omega⟩
  · exact ⟨le_refl _, by omega, fun h => by omega, fun _ => not_lt.mp h2⟩
  · exact ⟨by omega, le_refl _, fun _ => not_lt.mp h1, fun h => by omega⟩

theorem round_half_even_mono {m1 m2 : ℚ} (h : m1 ≤ m2) :
    round_half_even m1 ≤ round_half_even m2 := by
  have hf : ⌊m1⌋ ≤ ⌊m2⌋ := Int.floor_mono h
  obtain ⟨a1, a2, a3, a4⟩ := round_half_even_bounds m1
  obtain ⟨b1, b2, b3, b4⟩ := round_half_even_bounds m2
  rcases lt_or_eq_of_le hf with hlt | heq
  · omega
  · -- same floor
    by_contra hc
    push_neg at hc
    have e1 : round_half_even m1 = ⌊m1⌋ + 1 := by omega
    have e2 : round_half_even m2 = ⌊m2⌋ := by omega
    have c1 := a3 e1
    have c2 := b4 e2
    rw [← heq] at c2
    have hm : m1 = m2 := by linarith
    rw [hm] at e1
    omega


theorem int_log_two_eq {q : ℚ} {L : ℤ} (hq : 0 < q) (h1 : (2:ℚ) ^ L ≤ q) (h2 : q < (2:ℚ) ^ (L + 1)) :
    Int.log 2 q = L := by
  have a : L ≤ Int.log 2 q := by
    rw [← Int.zpow_le_iff_le_log (by norm_num) hq]
    simpa using h1
  have b : Int.log 2 q < L + 1 := by
    rw [← Int.lt_zpow_iff_log_lt (by norm_num) hq]
    simpa using h2
  omega

theorem two_zpow_pos (e : ℤ) : (0:ℚ) < (2:ℚ) ^ e := zpow_pos (by norm_num) e

/-- Evaluation of a rounding away from a tie: `q` lies in the binade
`[2^L, 2^(L+1))`, `e` is the exponent of its last place, and `q / 2^e` is within
less than one half of the integer `n`. -/
theorem round_float_eval (prec : ℕ) (emin : ℤ) (q : ℚ) (L e n : ℤ) (hq : 0 < q)
    (h1 : (2:ℚ) ^ L ≤ q) (h2 : q < (2:ℚ) ^ (L + 1))
    (he : e = max (L - ((prec : ℤ) - 1)) emin)
    (hlo : (n : ℚ) - 1 / 2 < q / 2 ^ e) (hhi : q / 2 ^ e < (n : ℚ) + 1 / 2) :
    round_float prec emin q = (n : ℚ) * 2 ^ e := by
  have hu : ulp_exponent prec emin q = e := by
    unfold ulp_exponent
    rw [abs_of_pos hq, int_log_two_eq hq h1 h2, he]
  unfold round_float
  rw [hu, round_half_even_near _ n (abs_lt.mpr ⟨by linarith, by linarith⟩)]

/-- Evaluation of a rounding at a tie above an odd integer `f`: the result is
the even neighbour `f + 1`. -/
theorem round_float_eval_tie_odd (prec : ℕ) (emin : ℤ) (q : ℚ) (L e f : ℤ) (hq : 0 < q)
    (h1 : (2:ℚ) ^ L ≤ q) (h2 : q < (2:ℚ) ^ (L + 1))
    (he : e = max (L - ((prec : ℤ) - 1)) emin)
    (hm : q / 2 ^ e = (f : ℚ) + 1 / 2) (hodd : f % 2 = 1) :
    round_float prec emin q = ((f : ℚ) + 1) * 2 ^ e := by
  have hu : ulp_exponent prec emin q = e := by
    unfold ulp_exponent
    rw [abs_of_pos hq, int_log_two_eq hq h1 h2, he]
  have hf : ⌊(f : ℚ) + 1 / 2⌋ = f := by
    rw [Int.floor_eq_iff]; constructor <;> linarith
  unfold round_float
  rw [hu, hm]
  unfold round_half_even
  rw [hf]
  have c1 : ¬ ((f : ℚ) + 1 / 2 - (f : ℚ) < 1 / 2) := by norm_num
  have c2 : ¬ ((1:ℚ) / 2 < (f : ℚ) + 1 / 2 - (f : ℚ)) := by norm_num
  have c3 : ¬ (f % 2 = 0) := by omega
  rw [if_neg c1, if_neg c2, if_neg c3]
  push_cast
  ring

/-- A value `n * 2^k` with `|n| < 2^prec` and `emin ≤ k` is representable: rounding returns it. -/
theorem round_float_exact (prec : ℕ) (emin : ℤ) (n k : ℤ) (hn : |n| < 2 ^ prec) (hk : emin ≤ k) :
    round_float prec emin ((n : ℚ) * 2 ^ k) = (n : ℚ) * 2 ^ k := by
  rcases eq_or_ne n 0 with h0 | h0
  · subst h0
    simp [round_float, round_half_even]
  have hnq : (0:ℚ) < |(n:ℚ)| := abs_pos.mpr (by exact_mod_cast h0)
  have hq : (0:ℚ) < |(n : ℚ) * 2 ^ k| := by
    rw [abs_mul, abs_of_pos (two_zpow_pos k)]
    exact mul_pos hnq (two_zpow_pos k)
  have hlt : |(n : ℚ) * 2 ^ k| < (2:ℚ) ^ ((prec : ℤ) + k) := by
    rw [abs_mul, abs_of_pos (two_zpow_pos k), zpow_add₀ (by norm_num), zpow_natCast]
    have : |(n:ℚ)| < (2:ℚ) ^ prec := by exact_mod_cast hn
    exact mul_lt_mul_of_pos_right this (two_zpow_pos k)
  have hlog : Int.log 2 |(n : ℚ) * 2 ^ k| < (prec : ℤ) + k := by
    rw [← Int.lt_zpow_iff_log_lt (by norm_num) hq]
    simpa using hlt
  have he : ulp_exponent prec emin ((n : ℚ) * 2 ^ k) ≤ k := by
    unfold ulp_exponent
    exact max_le (by omega) hk
  obtain ⟨d, hd⟩ : ∃ d : ℕ, k = ulp_exponent prec emin ((n : ℚ) * 2 ^ k) + d :=
    ⟨(k - ulp_exponent prec emin ((n : ℚ) * 2 ^ k)).toNat, by omega⟩
  unfold round_float
  set e := ulp_exponent prec emin ((n : ℚ) * 2 ^ k) with he_def
  have hm : (n : ℚ) * 2 ^ k / 2 ^ e = ((n * 2 ^ d : ℤ) : ℚ) := by
    rw [hd, zpow_add₀ (by norm_num), zpow_natCast]
    push_cast
    field_simp
    ring
  rw [hm, round_half_even_int]
  rw [hd, zpow_add₀ (by norm_num), zpow_natCast]
  push_cast
  ring

theorem round_float_nonneg (prec : ℕ) (emin : ℤ) {q : ℚ} (hq : 0 ≤ q) :
    0 ≤ round_float prec emin q := by
  unfold round_float
  apply mul_nonneg _ (two_zpow_pos _).le
  have h : (0:ℚ) ≤ q / 2 ^ ulp_exponent prec emin q := div_nonneg hq (two_zpow_pos _).le
  have := round_half_even_mono h
  rw [show (0:ℚ) = ((0:ℤ):ℚ) by simp, round_half_even_int] at this
  exact_mod_cast this

theorem round_float_nonpos (prec : ℕ) (emin : ℤ) {q : ℚ} (hq : q ≤ 0) :
    round_float prec emin q ≤ 0 := by
  unfold round_float
  apply mul_nonpos_of_nonpos_of_nonneg _ (two_zpow_pos _).le
  have h : q / 2 ^ ulp_exponent prec emin q ≤ (0:ℚ) := div_nonpos_of_nonpos_of_nonneg hq (two_zpow_pos _).le
  have := round_half_even_mono h
  rw [show (0:ℚ) = ((0:ℤ):ℚ) by simp, round_half_even_int] at this
  exact_mod_cast this

/-- Rounding is monotone on the positive rationals. -/
theorem round_float_mono_pos (prec : ℕ) (emin : ℤ) (hp : 1 ≤ prec) {q1 q2 : ℚ} (h1 : 0 < q1)
    (h : q1 ≤ q2) :
    round_float prec emin q1 ≤ round_float prec emin q2 := by
  have h2 : 0 < q2 := lt_of_lt_of_le h1 h
  have hL : Int.log 2 q1 ≤ Int.log 2 q2 := Int.log_mono_right h1 h
  have e1def : ulp_exponent prec emin q1 = max (Int.log 2 q1 - ((prec : ℤ) - 1)) emin := by
    unfold ulp_exponent; rw [abs_of_pos h1]
  have e2def : ulp_exponent prec emin q2 = max (Int.log 2 q2 - ((prec : ℤ) - 1)) emin := by
    unfold ulp_exponent; rw [abs_of_pos h2]
  have hle : ulp_exponent prec emin q1 ≤ ulp_exponent prec emin q2 := by
    rw [e1def, e2def]; exact max_le_max (by omega) (le_refl _)
  rcases eq_or_lt_of_le hle with heq | hlt
  · unfold round_float
    rw [heq]
    apply mul_le_mul_of_nonneg_right _ (two_zpow_pos _).le
    have : q1 / 2 ^ ulp_exponent prec emin q2 ≤ q2 / 2 ^ ulp_exponent prec emin q2 :=
      div_le_div_of_nonneg_right h (two_zpow_pos _).le
    exact_mod_cast round_half_even_mono this
  · -- different binades: the power of two `2 ^ (e2 + prec - 1)` separates the two results
    set e1 := ulp_exponent prec emin q1 with he1
    set e2 := ulp_exponent prec emin q2 with he2
    have hprec : (0:ℤ) ≤ (prec : ℤ) := Int.natCast_nonneg _
    have he2L : e2 = Int.log 2 q2 - ((prec : ℤ) - 1) := by
      have : emin ≤ e1 := by rw [e1def]; exact le_max_right _ _
      rw [e2def] at hlt ⊢
      rcases max_cases (Int.log 2 q2 - ((prec : ℤ) - 1)) emin with ⟨hm, _⟩ | ⟨hm, _⟩
      · exact hm
      · rw [hm] at hlt; omega
    have he1L : Int.log 2 q1 - ((prec : ℤ) - 1) ≤ e1 := by rw [e1def]; exact le_max_left _ _
    obtain ⟨p, hpp⟩ : ∃ p : ℕ, (prec : ℤ) - 1 = (p : ℤ) := ⟨prec - 1, by omega⟩
    rw [hpp] at he2L he1L
    -- the upper result is at least `2 ^ (e2 + p)`
    have hB2 : (2:ℚ) ^ (e2 + (p : ℤ)) ≤ round_float prec emin q2 := by
      have hq2 : (2:ℚ) ^ (e2 + (p : ℤ)) ≤ q2 := by
        have := Int.zpow_log_le_self (b := 2) (by norm_num) h2
        rw [show e2 + (p : ℤ) = Int.log 2 q2 by omega]
        simpa using this
      have hm : (((2 ^ p : ℤ)) : ℚ) ≤ q2 / 2 ^ e2 := by
        rw [le_div_iff₀ (two_zpow_pos e2)]
        push_cast
        rw [← zpow_natCast, ← zpow_add₀ (by norm_num), add_comm]
        exact hq2
      have hr := round_half_even_mono hm
      rw [round_half_even_int] at hr
      have hr' : ((2 ^ p : ℤ) : ℚ) ≤ (round_half_even (q2 / 2 ^ e2) : ℚ) := by exact_mod_cast hr
      unfold round_float
      rw [← he2]
      calc (2:ℚ) ^ (e2 + (p : ℤ)) = ((2 ^ p : ℤ) : ℚ) * 2 ^ e2 := by
            push_cast
            rw [← zpow_natCast, ← zpow_add₀ (by norm_num), add_comm]
        _ ≤ (round_half_even (q2 / 2 ^ e2) : ℚ) * 2 ^ e2 :=
            mul_le_mul_of_nonneg_right hr' (two_zpow_pos e2).le
    -- the lower result is at most `2 ^ (e2 + p)`
    have hB1 : round_float prec emin q1 ≤ (2:ℚ) ^ (e2 + (p : ℤ)) := by
      obtain ⟨d, hd⟩ : ∃ d : ℕ, e2 + (p : ℤ) = e1 + (d : ℤ) :=
        ⟨(e2 + (p : ℤ) - e1).toNat, by omega⟩
      have hq1 : q1 ≤ (2:ℚ) ^ (e2 + (p : ℤ)) := by
        have hlt1 := Int.lt_zpow_succ_log_self (b := 2) (by norm_num) q1
        have hmono : (2:ℚ) ^ (Int.log 2 q1 + 1) ≤ (2:ℚ) ^ (e2 + (p : ℤ)) :=
          zpow_le_zpow_right₀ (by norm_num) (by omega)
        have hlt1' : q1 < (2:ℚ) ^ (Int.log 2 q1 + 1) := by simpa using hlt1
        linarith
      have hm : q1 / 2 ^ e1 ≤ (((2 ^ d : ℤ)) : ℚ) := by
        rw [div_le_iff₀ (two_zpow_pos e1)]
        push_cast
        rw [← zpow_natCast, ← zpow_add₀ (by norm_num), add_comm, ← hd]
        exact hq1
      have hr := round_half_even_mono hm
      rw [round_half_even_int] at hr
      have hr' : (round_half_even (q1 / 2 ^ e1) : ℚ) ≤ ((2 ^ d : ℤ) : ℚ) := by exact_mod_cast hr
      unfold round_float
      rw [← he1]
      calc (round_half_even (q1 / 2 ^ e1) : ℚ) * 2 ^ e1
          ≤ ((2 ^ d : ℤ) : ℚ) * 2 ^ e1 := mul_le_mul_of_nonneg_right hr' (two_zpow_pos e1).le
        _ = (2:ℚ) ^ (e2 + (p : ℤ)) := by
            push_cast
            rw [← zpow_natCast, ← zpow_add₀ (by norm_num), add_comm, ← hd]
    exact le_trans hB1 hB2

/-- Rounding is monotone wherever the larger argument is not negative. -/
theorem round_float_mono (prec : ℕ) (emin : ℤ) (hp : 1 ≤ prec) {q1 q2 : ℚ} (h2 : 0 ≤ q2)
    (h : q1 ≤ q2) : round_float prec emin q1 ≤ round_float prec emin q2 := by
  rcases le_or_lt q1 0 with h1 | h1
  · exact le_trans (round_float_nonpos prec emin h1) (round_float_nonneg prec emin h2)
  · exact round_float_mono_pos prec emin hp h1 h


theorem fl32_zero : fl32 0 = 0 := by
  simp [fl32, round_float, round_half_even]

/-- The `float` value of the literal `0.1f`. -/
theorem fl32_tenth : fl32 0.1 = 13421773 / 134217728 := by
  have h : (0.1 : ℚ) = 1 / 10 := by norm_num
  rw [h, fl32, round_float_eval 24 (-149) (1 / 10) (-4) (-27) 13421773 (by norm_num)
    (by norm_num) (by norm_num) (by norm_num) (by norm_num) (by norm_num)]
  norm_num

/-- The `float` value of the literal `2.0f`. -/
theorem fl32_two : fl32 2.0 = 2 := by
  have h : (2.0 : ℚ) = ((1 : ℤ) : ℚ) * 2 ^ (1 : ℤ) := by norm_num
  rw [h, fl32, round_float_exact 24 (-149) 1 1 (by norm_num) (by norm_num)]
  norm_num

/-- The `float` value of the literal `360.0f`. -/
theorem fl32_360 : fl32 360.0 = 360 := by
  have h : (360.0 : ℚ) = ((45 : ℤ) : ℚ) * 2 ^ (3 : ℤ) := by norm_num
  rw [h, fl32, round_float_exact 24 (-149) 45 3 (by norm_num) (by norm_num)]
  norm_num

/-! ## The handler `scroll` in binary32 -/

theorem scroll_f32_up_scale (w : World) :
    (scroll_f32 w GdkScrollDirection.GDK_SCROLL_UP).scale =
      if fl32 (w.scale - 13421773 / 134217728) > 2 then 2
      else if fl32 (w.scale - 13421773 / 134217728) < 13421773 / 134217728
        then 13421773 / 134217728
      else fl32 (w.scale - 13421773 / 134217728) := by
  simp only [scroll_f32, if_true, fl32_tenth, fl32_two]

theorem scroll_f32_down_scale (w : World) :
    (scroll_f32 w GdkScrollDirection.GDK_SCROLL_DOWN).scale =
      if fl32 (w.scale + 13421773 / 134217728) > 2 then 2
      else if fl32 (w.scale + 13421773 / 134217728) < 13421773 / 134217728
        then 13421773 / 134217728
      else fl32 (w.scale + 13421773 / 134217728) := by
  have hne : ¬ GdkScrollDirection.GDK_SCROLL_DOWN = GdkScrollDirection.GDK_SCROLL_UP := by
    decide
  simp only [scroll_f32, if_neg hne, if_true, fl32_tenth, fl32_two]

/-- Whatever the old scale, an up or down event leaves the scale in `[0.1f, 2.0f]`. -/
theorem scroll_f32_up_range (w : World) :
    13421773 / 134217728 ≤ (scroll_f32 w GdkScrollDirection.GDK_SCROLL_UP).scale ∧
    (scroll_f32 w GdkScrollDirection.GDK_SCROLL_UP).scale ≤ 2 := by
  rw [scroll_f32_up_scale]
  split_ifs with h1 h2
  · norm_num
  · norm_num
  · exact ⟨not_lt.mp h2, not_lt.mp h1⟩

theorem scroll_f32_down_range (w : World) :
    13421773 / 134217728 ≤ (scroll_f32 w GdkScrollDirection.GDK_SCROLL_DOWN).scale ∧
    (scroll_f32 w GdkScrollDirection.GDK_SCROLL_DOWN).scale ≤ 2 := by
  rw [scroll_f32_down_scale]
  split_ifs with h1 h2
  · norm_num
  · norm_num
  · exact ⟨not_lt.mp h2, not_lt.mp h1⟩

/-- The clamp of `scroll` is monotone. -/
theorem clamp_mono {a b : ℚ} (h : a ≤ b) :
    (if a > 2 then (2:ℚ) else if a < 13421773 / 134217728 then 13421773 / 134217728 else a) ≤
    (if b > 2 then (2:ℚ) else if b < 13421773 / 134217728 then 13421773 / 134217728 else b) := by
  split_ifs <;> norm_num at * <;> linarith

theorem clamp_nonpos {a : ℚ} (h : a ≤ 0) :
    (if a > 2 then (2:ℚ) else if a < 13421773 / 134217728 then 13421773 / 134217728 else a) =
      13421773 / 134217728 := by
  rw [if_neg (by linarith), if_pos (by linarith)]

/-- A larger scale before an up event gives a scale at least as large after it. -/
theorem scroll_f32_up_mono (w1 w2 : World) (h : w1.scale ≤ w2.scale) :
    (scroll_f32 w1 GdkScrollDirection.GDK_SCROLL_UP).scale ≤
      (scroll_f32 w2 GdkScrollDirection.GDK_SCROLL_UP).scale := by
  rw [scroll_f32_up_scale, scroll_f32_up_scale]
  rcases le_or_lt 0 (w2.scale - 13421773 / 134217728) with h2 | h2
  · exact clamp_mono (round_float_mono 24 (-149) (by norm_num) h2 (by linarith))
  · have a1 : fl32 (w1.scale - 13421773 / 134217728) ≤ 0 :=
      round_float_nonpos 24 (-149) (by linarith)
    have a2 : fl32 (w2.scale - 13421773 / 134217728) ≤ 0 :=
      round_float_nonpos 24 (-149) h2.le
    rw [clamp_nonpos a1, clamp_nonpos a2]

/-- A larger scale before a down event gives a scale at least as large after it. -/
theorem scroll_f32_down_mono (w1 w2 : World) (h : w1.scale ≤ w2.scale) :
    (scroll_f32 w1 GdkScrollDirection.GDK_SCROLL_DOWN).scale ≤
      (scroll_f32 w2 GdkScrollDirection.GDK_SCROLL_DOWN).scale := by
  rw [scroll_f32_down_scale, scroll_f32_down_scale]
  rcases le_or_lt 0 (w2.scale + 13421773 / 134217728) with h2 | h2
  · exact clamp_mono (round_float_mono 24 (-149) (by norm_num) h2 (by linarith))
  · have a1 : fl32 (w1.scale + 13421773 / 134217728) ≤ 0 :=
      round_float_nonpos 24 (-149) (by linarith)
    have a2 : fl32 (w2.scale + 13421773 / 134217728) ≤ 0 :=
      round_float_nonpos 24 (-149) h2.le
    rw [clamp_nonpos a1, clamp_nonpos a2]

/-! ### The three runs, event by event -/

/-- Up event number 1 of the run that starts at scale `2.0f`. -/
theorem up_from_two_1 (w : World) (h : w.scale = 2) :
    (scroll_f32 w GdkScrollDirection.GDK_SCROLL_UP).scale = 15938355 / 8388608 := by
  have hq : (2 : ℚ) - 13421773 / 134217728 = 255013683 / 134217728 := by norm_num
  have hr : fl32 (255013683 / 134217728) = 15938355 / 8388608 := by
    rw [fl32, round_float_eval 24 (-149) (255013683 / 134217728) 0 (-23) 15938355 (by norm_num)
      (by norm_num) (by norm_num) (by norm_num) (by norm_num) (by norm_num)]
    norm_num
  rw [scroll_f32_up_scale, h, hq, hr]
  norm_num

/-- Up event number 2 of the run that starts at scale `2.0f`. -/
theorem up_from_two_2 (w : World) (h : w.scale = 15938355 / 8388608) :
    (scroll_f32 w GdkScrollDirection.GDK_SCROLL_UP).scale = 7549747 / 4194304 := by
  have hq : (15938355 / 8388608 : ℚ) - 13421773 / 134217728 = 241591907 / 134217728 := by norm_num
  have hr : fl32 (241591907 / 134217728) = 7549747 / 4194304 := by
    rw [fl32, round_float_eval 24 (-149) (241591907 / 134217728) 0 (-23) 15099494 (by norm_num)
      (by norm_num) (by norm_num) (by norm_num) (by norm_num) (by norm_num)]
    norm_num
  rw [scroll_f32_up_scale, h, hq, hr]
  norm_num

/-- Up event number 3 of the run that starts at scale `2.0f`. -/
theorem up_from_two_3 (w : World) (h : w.scale = 7549747 / 4194304) :
    (scroll_f32 w GdkScrollDirection.GDK_SCROLL_UP).scale = 14260633 / 8388608 := by
  have hq : (7549747 / 4194304 : ℚ) - 13421773 / 134217728 = 228170131 / 134217728 := by norm_num
  have hr : fl32 (228170131 / 134217728) = 14260633 / 8388608 := by
    rw [fl32, round_float_eval 24 (-149) (228170131 / 134217728) 0 (-23) 14260633 (by norm_num)
      (by norm_num) (by norm_num) (by norm_num) (by norm_num) (by norm_num)]
    norm_num
  rw [scroll_f32_up_scale, h, hq, hr]
  norm_num

/-- Up event number 4 of the run that starts at scale `2.0f`. -/
theorem up_from_two_4 (w : World) (h : w.scale = 14260633 / 8388608) :
    (scroll_f32 w GdkScrollDirection.GDK_SCROLL_UP).scale = 3355443 / 2097152 := by
  have hq : (14260633 / 8388608 : ℚ) - 13421773 / 134217728 = 214748355 / 134217728 := by norm_num
  have hr : fl32 (214748355 / 134217728) = 3355443 / 2097152 := by
    rw [fl32, round_float_eval 24 (-149) (214748355 / 134217728) 0 (-23) 13421772 (by norm_num)
      (by norm_num) (by norm_num) (by norm_num) (by norm_num) (by norm_num)]
    norm_num
  rw [scroll_f32_up_scale, h, hq, hr]
  norm_num

/-- Up event number 5 of the run that starts at scale `2.0f`. -/
theorem up_from_two_5 (w : World) (h : w.scale = 3355443 / 2097152) :
    (scroll_f32 w GdkScrollDirection.GDK_SCROLL_UP).scale = 12582911 / 8388608 := by
  have hq : (3355443 / 2097152 : ℚ) - 13421773 / 134217728 = 201326579 / 134217728 := by norm_num
  have hr : fl32 (201326579 / 134217728) = 12582911 / 8388608 := by
    rw [fl32, round_float_eval 24 (-149) (201326579 / 134217728) 0 (-23) 12582911 (by norm_num)
      (by norm_num) (by norm_num) (by norm_num) (by norm_num) (by norm_num)]
    norm_num
  rw [scroll_f32_up_scale, h, hq, hr]
  norm_num

/-- Up event number 6 of the run that starts at scale `2.0f`. -/
theorem up_from_two_6 (w : World) (h : w.scale = 12582911 / 8388608) :
    (scroll_f32 w GdkScrollDirection.GDK_SCROLL_UP).scale = 5872025 / 4194304 := by
  have hq : (12582911 / 8388608 : ℚ) - 13421773 / 134217728 = 187904803 / 134217728 := by norm_num
  have hr : fl32 (187904803 / 134217728) = 5872025 / 4194304 := by
    rw [fl32, round_float_eval 24 (-149) (187904803 / 134217728) 0 (-23) 11744050 (by norm_num)
      (by norm_num) (by norm_num) (by norm_num) (by norm_num) (by norm_num)]
    norm_num
  rw [scroll_f32_up_scale, h, hq, hr]
  norm_num

/-- Up event number 7 of the run that starts at scale `2.0f`. -/
theorem up_from_two_7 (w : World) (h : w.scale = 5872025 / 4194304) :
    (scroll_f32 w GdkScrollDirection.GDK_SCROLL_UP).scale = 10905189 / 8388608 := by
  have hq : (5872025 / 4194304 : ℚ) - 13421773 / 134217728 = 174483027 / 134217728 := by norm_num
  have hr : fl32 (174483027 / 134217728) = 10905189 / 8388608 := by
    rw [fl32, round_float_eval 24 (-149) (174483027 / 134217728) 0 (-23) 10905189 (by norm_num)
      (by norm_num) (by norm_num) (by norm_num) (by norm_num) (by norm_num)]
    norm_num
  rw [scroll_f32_up_scale, h, hq, hr]
  norm_num

/-- Up event number 8 of the run that starts at scale `2.0f`. -/
theorem up_from_two_8 (w : World) (h : w.scale = 10905189 / 8388608) :
    (scroll_f32 w GdkScrollDirection.GDK_SCROLL_UP).scale = 1258291 / 1048576 := by
  have hq : (10905189 / 8388608 : ℚ) - 13421773 / 134217728 = 161061251 / 134217728 := by norm_num
  have hr : fl32 (161061251 / 134217728) = 1258291 / 1048576 := by
    rw [fl32, round_float_eval 24 (-149) (161061251 / 134217728) 0 (-23) 10066328 (by norm_num)
      (by norm_num) (by norm_num) (by norm_num) (by norm_num) (by norm_num)]
    norm_num
  rw [scroll_f32_up_scale, h, hq, hr]
  norm_num

/-- Up event number 9 of the run that starts at scale `2.0f`. -/
theorem up_from_two_9 (w : World) (h : w.scale = 1258291 / 1048576) :
    (scroll_f32 w GdkScrollDirection.GDK_SCROLL_UP).scale = 9227467 / 8388608 := by
  have hq : (1258291 / 1048576 : ℚ) - 13421773 / 134217728 = 147639475 / 134217728 := by norm_num
  have hr : fl32 (147639475 / 134217728) = 9227467 / 8388608 := by
    rw [fl32, round_float_eval 24 (-149) (147639475 / 134217728) 0 (-23) 9227467 (by norm_num)
      (by norm_num) (by norm_num) (by norm_num) (by norm_num) (by norm_num)]
    norm_num
  rw [scroll_f32_up_scale, h, hq, hr]
  norm_num

/-- Up event number 10 of the run that starts at scale `2.0f`. -/
theorem up_from_two_10 (w : World) (h : w.scale = 9227467 / 8388608) :
    (scroll_f32 w GdkScrollDirection.GDK_SCROLL_UP).scale = 4194303 / 4194304 := by
  have hq : (9227467 / 8388608 : ℚ) - 13421773 / 134217728 = 134217699 / 134217728 := by norm_num
  have hr : fl32 (134217699 / 134217728) = 4194303 / 4194304 := by
    rw [fl32, round_float_eval 24 (-149) (134217699 / 134217728) (-1) (-24) 16777212 (by norm_num)
      (by norm_num) (by norm_num) (by norm_num) (by norm_num) (by norm_num)]
    norm_num
  rw [scroll_f32_up_scale, h, hq, hr]
  norm_num

/-- Up event number 11 of the run that starts at scale `2.0f`. -/
theorem up_from_two_11 (w : World) (h : w.scale = 4194303 / 4194304) :
    (scroll_f32 w GdkScrollDirection.GDK_SCROLL_UP).scale = 7549745 / 8388608 := by
  have hq : (4194303 / 4194304 : ℚ) - 13421773 / 134217728 = 120795923 / 134217728 := by norm_num
  have hr : fl32 (120795923 / 134217728) = 7549745 / 8388608 := by
    rw [fl32, round_float_eval 24 (-149) (120795923 / 134217728) (-1) (-24) 15099490 (by norm_num)
      (by norm_num) (by norm_num) (by norm_num) (by norm_num) (by norm_num)]
    norm_num
  rw [scroll_f32_up_scale, h, hq, hr]
  norm_num

/-- Up event number 12 of the run that starts at scale `2.0f`. -/
theorem up_from_two_12 (w : World) (h : w.scale = 7549745 / 8388608) :
    (scroll_f32 w GdkScrollDirection.GDK_SCROLL_UP).scale = 1677721 / 2097152 := by
  have hq : (7549745 / 8388608 : ℚ) - 13421773 / 134217728 = 107374147 / 134217728 := by norm_num
  have hr : fl32 (107374147 / 134217728) = 1677721 / 2097152 := by
    rw [fl32, round_float_eval 24 (-149) (107374147 / 134217728) (-1) (-24) 13421768 (by norm_num)
      (by norm_num) (by norm_num) (by norm_num) (by norm_num) (by norm_num)]
    norm_num
  rw [scroll_f32_up_scale, h, hq, hr]
  norm_num

/-- Up event number 13 of the run that starts at scale `2.0f`. -/
theorem up_from_two_13 (w : World) (h : w.scale = 1677721 / 2097152) :
    (scroll_f32 w GdkScrollDirection.GDK_SCROLL_UP).scale = 5872023 / 8388608 := by
  have hq : (1677721 / 2097152 : ℚ) - 13421773 / 134217728 = 93952371 / 134217728 := by norm_num
  have hr : fl32 (93952371 / 134217728) = 5872023 / 8388608 := by
    rw [fl32, round_float_eval 24 (-149) (93952371 / 134217728) (-1) (-24) 11744046 (by norm_num)
      (by norm_num) (by norm_num) (by norm_num) (by norm_num) (by norm_num)]
    norm_num
  rw [scroll_f32_up_scale, h, hq, hr]
  norm_num

/-- Up event number 14 of the run that starts at scale `2.0f`. -/
theorem up_from_two_14 (w : World) (h : w.scale = 5872023 / 8388608) :
    (scroll_f32 w GdkScrollDirection.GDK_SCROLL_UP).scale = 2516581 / 4194304 := by
  have hq : (5872023 / 8388608 : ℚ) - 13421773 / 134217728 = 80530595 / 134217728 := by norm_num
  have hr : fl32 (80530595 / 134217728) = 2516581 / 4194304 := by
    rw [fl32, round_float_eval 24 (-149) (80530595 / 134217728) (-1) (-24) 10066324 (by norm_num)
      (by norm_num) (by norm_num) (by norm_num) (by norm_num) (by norm_num)]
    norm_num
  rw [scroll_f32_up_scale, h, hq, hr]
  norm_num

/-- Up event number 15 of the run that starts at scale `2.0f`. -/
theorem up_from_two_15 (w : World) (h : w.scale = 2516581 / 4194304) :
    (scroll_f32 w GdkScrollDirection.GDK_SCROLL_UP).scale = 16777205 / 33554432 := by
  have hq : (2516581 / 4194304 : ℚ) - 13421773 / 134217728 = 67108819 / 134217728 := by norm_num
  have hr : fl32 (67108819 / 134217728) = 16777205 / 33554432 := by
    rw [fl32, round_float_eval 24 (-149) (67108819 / 134217728) (-2) (-25) 16777205 (by norm_num)
      (by norm_num) (by norm_num) (by norm_num) (by norm_num) (by norm_num)]
    norm_num
  rw [scroll_f32_up_scale, h, hq, hr]
  norm_num

/-- Up event number 16 of the run that starts at scale `2.0f`. -/
theorem up_from_two_16 (w : World) (h : w.scale = 16777205 / 33554432) :
    (scroll_f32 w GdkScrollDirection.GDK_SCROLL_UP).scale = 6710881 / 16777216 := by
  have hq : (16777205 / 33554432 : ℚ) - 13421773 / 134217728 = 53687047 / 134217728 := by norm_num
  have hr : fl32 (53687047 / 134217728) = 6710881 / 16777216 := by
    rw [fl32, round_float_eval 24 (-149) (53687047 / 134217728) (-2) (-25) 13421762 (by norm_num)
      (by norm_num) (by norm_num) (by norm_num) (by norm_num) (by norm_num)]
    norm_num
  rw [scroll_f32_up_scale, h, hq, hr]
  norm_num

/-- Up event number 17 of the run that starts at scale `2.0f`. -/
theorem up_from_two_17 (w : World) (h : w.scale = 6710881 / 16777216) :
    (scroll_f32 w GdkScrollDirection.GDK_SCROLL_UP).scale = 10066319 / 33554432 := by
  have hq : (6710881 / 16777216 : ℚ) - 13421773 / 134217728 = 40265275 / 134217728 := by norm_num
  have hr : fl32 (40265275 / 134217728) = 10066319 / 33554432 := by
    rw [fl32, round_float_eval 24 (-149) (40265275 / 134217728) (-2) (-25) 10066319 (by norm_num)
      (by norm_num) (by norm_num) (by norm_num) (by norm_num) (by norm_num)]
    norm_num
  rw [scroll_f32_up_scale, h, hq, hr]
  norm_num

/-- Up event number 18 of the run that starts at scale `2.0f`. -/
theorem up_from_two_18 (w : World) (h : w.scale = 10066319 / 33554432) :
    (scroll_f32 w GdkScrollDirection.GDK_SCROLL_UP).scale = 1677719 / 8388608 := by
  have hq : (10066319 / 33554432 : ℚ) - 13421773 / 134217728 = 26843503 / 134217728 := by norm_num
  have hr : fl32 (26843503 / 134217728) = 1677719 / 8388608 := by
    rw [fl32, round_float_eval_tie_odd 24 (-149) (26843503 / 134217728) (-3) (-26) 13421751 (by norm_num)
      (by norm_num) (by norm_num) (by norm_num) (by norm_num) (by norm_num)]
    norm_num
  rw [scroll_f32_up_scale, h, hq, hr]
  norm_num

/-- Up event number 19 of the run that starts at scale `2.0f`. -/
theorem up_from_two_19 (w : World) (h : w.scale = 1677719 / 8388608) :
    (scroll_f32 w GdkScrollDirection.GDK_SCROLL_UP).scale = 13421773 / 134217728 := by
  have hq : (1677719 / 8388608 : ℚ) - 13421773 / 134217728 = 13421731 / 134217728 := by norm_num
  have hr : fl32 (13421731 / 134217728) = 13421731 / 134217728 := by
    rw [fl32, round_float_eval 24 (-149) (13421731 / 134217728) (-4) (-27) 13421731 (by norm_num)
      (by norm_num) (by norm_num) (by norm_num) (by norm_num) (by norm_num)]
    norm_num
  rw [scroll_f32_up_scale, h, hq, hr]
  norm_num

/-- Down event number 1 of the run that starts at scale `0.1`. -/
theorem down_from_tenth_1 (w : World) (h : w.scale = 1 / 10) :
    (scroll_f32 w GdkScrollDirection.GDK_SCROLL_DOWN).scale = 13421773 / 67108864 := by
  have hq : (1 / 10 : ℚ) + 13421773 / 134217728 = 134217729 / 671088640 := by norm_num
  have hr : fl32 (134217729 / 671088640) = 13421773 / 67108864 := by
    rw [fl32, round_float_eval 24 (-149) (134217729 / 671088640) (-3) (-26) 13421773 (by norm_num)
      (by norm_num) (by norm_num) (by norm_num) (by norm_num) (by norm_num)]
    norm_num
  rw [scroll_f32_down_scale, h, hq, hr]
  norm_num

/-- Down event number 2 of the run that starts at scale `0.1`. -/
theorem down_from_tenth_2 (w : World) (h : w.scale = 13421773 / 67108864) :
    (scroll_f32 w GdkScrollDirection.GDK_SCROLL_DOWN).scale = 5033165 / 16777216 := by
  have hq : (13421773 / 67108864 : ℚ) + 13421773 / 134217728 = 40265319 / 134217728 := by norm_num
  have hr : fl32 (40265319 / 134217728) = 5033165 / 16777216 := by
    rw [fl32, round_float_eval 24 (-149) (40265319 / 134217728) (-2) (-25) 10066330 (by norm_num)
      (by norm_num) (by norm_num) (by norm_num) (by norm_num) (by norm_num)]
    norm_num
  rw [scroll_f32_down_scale, h, hq, hr]
  norm_num

/-- Down event number 3 of the run that starts at scale `0.1`. -/
theorem down_from_tenth_3 (w : World) (h : w.scale = 5033165 / 16777216) :
    (scroll_f32 w GdkScrollDirection.GDK_SCROLL_DOWN).scale = 13421773 / 33554432 := by
  have hq : (5033165 / 16777216 : ℚ) + 13421773 / 134217728 = 53687093 / 134217728 := by norm_num
  have hr : fl32 (53687093 / 134217728) = 13421773 / 33554432 := by
    rw [fl32, round_float_eval 24 (-149) (53687093 / 134217728) (-2) (-25) 13421773 (by norm_num)
      (by norm_num) (by norm_num) (by norm_num) (by norm_num) (by norm_num)]
    norm_num
  rw [scroll_f32_down_scale, h, hq, hr]
  norm_num

/-- Down event number 4 of the run that starts at scale `0.1`. -/
theorem down_from_tenth_4 (w : World) (h : w.scale = 13421773 / 33554432) :
    (scroll_f32 w GdkScrollDirection.GDK_SCROLL_DOWN).scale = 1 / 2 := by
  have hq : (13421773 / 33554432 : ℚ) + 13421773 / 134217728 = 67108865 / 134217728 := by norm_num
  have hr : fl32 (67108865 / 134217728) = 1 / 2 := by
    rw [fl32, round_float_eval 24 (-149) (67108865 / 134217728) (-1) (-24) 8388608 (by norm_num)
      (by norm_num) (by norm_num) (by norm_num) (by norm_num) (by norm_num)]
    norm_num
  rw [scroll_f32_down_scale, h, hq, hr]
  norm_num

/-- Down event number 5 of the run that starts at scale `0.1`. -/
theorem down_from_tenth_5 (w : World) (h : w.scale = 1 / 2) :
    (scroll_f32 w GdkScrollDirection.GDK_SCROLL_DOWN).scale = 5033165 / 8388608 := by
  have hq : (1 / 2 : ℚ) + 13421773 / 134217728 = 80530637 / 134217728 := by norm_num
  have hr : fl32 (80530637 / 134217728) = 5033165 / 8388608 := by
    rw [fl32, round_float_eval 24 (-149) (80530637 / 134217728) (-1) (-24) 10066330 (by norm_num)
      (by norm_num) (by norm_num) (by norm_num) (by norm_num) (by norm_num)]
    norm_num
  rw [scroll_f32_down_scale, h, hq, hr]
  norm_num

/-- Down event number 6 of the run that starts at scale `0.1`. -/
theorem down_from_tenth_6 (w : World) (h : w.scale = 5033165 / 8388608) :
    (scroll_f32 w GdkScrollDirection.GDK_SCROLL_DOWN).scale = 2936013 / 4194304 := by
  have hq : (5033165 / 8388608 : ℚ) + 13421773 / 134217728 = 93952413 / 134217728 := by norm_num
  have hr : fl32 (93952413 / 134217728) = 2936013 / 4194304 := by
    rw [fl32, round_float_eval 24 (-149) (93952413 / 134217728) (-1) (-24) 11744052 (by norm_num)
      (by norm_num) (by norm_num) (by norm_num) (by norm_num) (by norm_num)]
    norm_num
  rw [scroll_f32_down_scale, h, hq, hr]
  norm_num

/-- Down event number 7 of the run that starts at scale `0.1`. -/
theorem down_from_tenth_7 (w : World) (h : w.scale = 2936013 / 4194304) :
    (scroll_f32 w GdkScrollDirection.GDK_SCROLL_DOWN).scale = 6710887 / 8388608 := by
  have hq : (2936013 / 4194304 : ℚ) + 13421773 / 134217728 = 107374189 / 134217728 := by norm_num
  have hr : fl32 (107374189 / 134217728) = 6710887 / 8388608 := by
    rw [fl32, round_float_eval 24 (-149) (107374189 / 134217728) (-1) (-24) 13421774 (by norm_num)
      (by norm_num) (by norm_num) (by norm_num) (by norm_num) (by norm_num)]
    norm_num
  rw [scroll_f32_down_scale, h, hq, hr]
  norm_num

/-- Down event number 8 of the run that starts at scale `0.1`. -/
theorem down_from_tenth_8 (w : World) (h : w.scale = 6710887 / 8388608) :
    (scroll_f32 w GdkScrollDirection.GDK_SCROLL_DOWN).scale = 1887437 / 2097152 := by
  have hq : (6710887 / 8388608 : ℚ) + 13421773 / 134217728 = 120795965 / 134217728 := by norm_num
  have hr : fl32 (120795965 / 134217728) = 1887437 / 2097152 := by
    rw [fl32, round_float_eval 24 (-149) (120795965 / 134217728) (-1) (-24) 15099496 (by norm_num)
      (by norm_num) (by norm_num) (by norm_num) (by norm_num) (by norm_num)]
    norm_num
  rw [scroll_f32_down_scale, h, hq, hr]
  norm_num

/-- Down event number 9 of the run that starts at scale `0.1`. -/
theorem down_from_tenth_9 (w : World) (h : w.scale = 1887437 / 2097152) :
    (scroll_f32 w GdkScrollDirection.GDK_SCROLL_DOWN).scale = 8388609 / 8388608 := by
  have hq : (1887437 / 2097152 : ℚ) + 13421773 / 134217728 = 134217741 / 134217728 := by norm_num
  have hr : fl32 (134217741 / 134217728) = 8388609 / 8388608 := by
    rw [fl32, round_float_eval 24 (-149) (134217741 / 134217728) 0 (-23) 8388609 (by norm_num)
      (by norm_num) (by norm_num) (by norm_num) (by norm_num) (by norm_num)]
    norm_num
  rw [scroll_f32_down_scale, h, hq, hr]
  norm_num

/-- Down event number 10 of the run that starts at scale `0.1`. -/
theorem down_from_tenth_10 (w : World) (h : w.scale = 8388609 / 8388608) :
    (scroll_f32 w GdkScrollDirection.GDK_SCROLL_DOWN).scale = 4613735 / 4194304 := by
  have hq : (8388609 / 8388608 : ℚ) + 13421773 / 134217728 = 147639517 / 134217728 := by norm_num
  have hr : fl32 (147639517 / 134217728) = 4613735 / 4194304 := by
    rw [fl32, round_float_eval 24 (-149) (147639517 / 134217728) 0 (-23) 9227470 (by norm_num)
      (by norm_num) (by norm_num) (by norm_num) (by norm_num) (by norm_num)]
    norm_num
  rw [scroll_f32_down_scale, h, hq, hr]
  norm_num

/-- Down event number 11 of the run that starts at scale `0.1`. -/
theorem down_from_tenth_11 (w : World) (h : w.scale = 4613735 / 4194304) :
    (scroll_f32 w GdkScrollDirection.GDK_SCROLL_DOWN).scale = 10066331 / 8388608 := by
  have hq : (4613735 / 4194304 : ℚ) + 13421773 / 134217728 = 161061293 / 134217728 := by norm_num
  have hr : fl32 (161061293 / 134217728) = 10066331 / 8388608 := by
    rw [fl32, round_float_eval 24 (-149) (161061293 / 134217728) 0 (-23) 10066331 (by norm_num)
      (by norm_num) (by norm_num) (by norm_num) (by norm_num) (by norm_num)]
    norm_num
  rw [scroll_f32_down_scale, h, hq, hr]
  norm_num

/-- Down event number 12 of the run that starts at scale `0.1`. -/
theorem down_from_tenth_12 (w : World) (h : w.scale = 10066331 / 8388608) :
    (scroll_f32 w GdkScrollDirection.GDK_SCROLL_DOWN).scale = 1363149 / 1048576 := by
  have hq : (10066331 / 8388608 : ℚ) + 13421773 / 134217728 = 174483069 / 134217728 := by norm_num
  have hr : fl32 (174483069 / 134217728) = 1363149 / 1048576 := by
    rw [fl32, round_float_eval 24 (-149) (174483069 / 134217728) 0 (-23) 10905192 (by norm_num)
      (by norm_num) (by norm_num) (by norm_num) (by norm_num) (by norm_num)]
    norm_num
  rw [scroll_f32_down_scale, h, hq, hr]
  norm_num

/-- Down event number 13 of the run that starts at scale `0.1`. -/
theorem down_from_tenth_13 (w : World) (h : w.scale = 1363149 / 1048576) :
    (scroll_f32 w GdkScrollDirection.GDK_SCROLL_DOWN).scale = 11744053 / 8388608 := by
  have hq : (1363149 / 1048576 : ℚ) + 13421773 / 134217728 = 187904845 / 134217728 := by norm_num
  have hr : fl32 (187904845 / 134217728) = 11744053 / 8388608 := by
    rw [fl32, round_float_eval 24 (-149) (187904845 / 134217728) 0 (-23) 11744053 (by norm_num)
      (by norm_num) (by norm_num) (by norm_num) (by norm_num) (by norm_num)]
    norm_num
  rw [scroll_f32_down_scale, h, hq, hr]
  norm_num

/-- Down event number 14 of the run that starts at scale `0.1`. -/
theorem down_from_tenth_14 (w : World) (h : w.scale = 11744053 / 8388608) :
    (scroll_f32 w GdkScrollDirection.GDK_SCROLL_DOWN).scale = 6291457 / 4194304 := by
  have hq : (11744053 / 8388608 : ℚ) + 13421773 / 134217728 = 201326621 / 134217728 := by norm_num
  have hr : fl32 (201326621 / 134217728) = 6291457 / 4194304 := by
    rw [fl32, round_float_eval 24 (-149) (201326621 / 134217728) 0 (-23) 12582914 (by norm_num)
      (by norm_num) (by norm_num) (by norm_num) (by norm_num) (by norm_num)]
    norm_num
  rw [scroll_f32_down_scale, h, hq, hr]
  norm_num

/-- Down event number 15 of the run that starts at scale `0.1`. -/
theorem down_from_tenth_15 (w : World) (h : w.scale = 6291457 / 4194304) :
    (scroll_f32 w GdkScrollDirection.GDK_SCROLL_DOWN).scale = 13421775 / 8388608 := by
  have hq : (6291457 / 4194304 : ℚ) + 13421773 / 134217728 = 214748397 / 134217728 := by norm_num
  have hr : fl32 (214748397 / 134217728) = 13421775 / 8388608 := by
    rw [fl32, round_float_eval 24 (-149) (214748397 / 134217728) 0 (-23) 13421775 (by norm_num)
      (by norm_num) (by norm_num) (by norm_num) (by norm_num) (by norm_num)]
    norm_num
  rw [scroll_f32_down_scale, h, hq, hr]
  norm_num

/-- Down event number 16 of the run that starts at scale `0.1`. -/
theorem down_from_tenth_16 (w : World) (h : w.scale = 13421775 / 8388608) :
    (scroll_f32 w GdkScrollDirection.GDK_SCROLL_DOWN).scale = 3565159 / 2097152 := by
  have hq : (13421775 / 8388608 : ℚ) + 13421773 / 134217728 = 228170173 / 134217728 := by norm_num
  have hr : fl32 (228170173 / 134217728) = 3565159 / 2097152 := by
    rw [fl32, round_float_eval 24 (-149) (228170173 / 134217728) 0 (-23) 14260636 (by norm_num)
      (by norm_num) (by norm_num) (by norm_num) (by norm_num) (by norm_num)]
    norm_num
  rw [scroll_f32_down_scale, h, hq, hr]
  norm_num

/-- Down event number 17 of the run that starts at scale `0.1`. -/
theorem down_from_tenth_17 (w : World) (h : w.scale = 3565159 / 2097152) :
    (scroll_f32 w GdkScrollDirection.GDK_SCROLL_DOWN).scale = 15099497 / 8388608 := by
  have hq : (3565159 / 2097152 : ℚ) + 13421773 / 134217728 = 241591949 / 134217728 := by norm_num
  have hr : fl32 (241591949 / 134217728) = 15099497 / 8388608 := by
    rw [fl32, round_float_eval 24 (-149) (241591949 / 134217728) 0 (-23) 15099497 (by norm_num)
      (by norm_num) (by norm_num) (by norm_num) (by norm_num) (by norm_num)]
    norm_num
  rw [scroll_f32_down_scale, h, hq, hr]
  norm_num

/-- Down event number 18 of the run that starts at scale `0.1`. -/
theorem down_from_tenth_18 (w : World) (h : w.scale = 15099497 / 8388608) :
    (scroll_f32 w GdkScrollDirection.GDK_SCROLL_DOWN).scale = 7969179 / 4194304 := by
  have hq : (15099497 / 8388608 : ℚ) + 13421773 / 134217728 = 255013725 / 134217728 := by norm_num
  have hr : fl32 (255013725 / 134217728) = 7969179 / 4194304 := by
    rw [fl32, round_float_eval 24 (-149) (255013725 / 134217728) 0 (-23) 15938358 (by norm_num)
      (by norm_num) (by norm_num) (by norm_num) (by norm_num) (by norm_num)]
    norm_num
  rw [scroll_f32_down_scale, h, hq, hr]
  norm_num

/-- Down event number 19 of the run that starts at scale `0.1`. -/
theorem down_from_tenth_19 (w : World) (h : w.scale = 7969179 / 4194304) :
    (scroll_f32 w GdkScrollDirection.GDK_SCROLL_DOWN).scale = 2 := by
  have hq : (7969179 / 4194304 : ℚ) + 13421773 / 134217728 = 268435501 / 134217728 := by norm_num
  have hr : fl32 (268435501 / 134217728) = 8388609 / 4194304 := by
    rw [fl32, round_float_eval 24 (-149) (268435501 / 134217728) 1 (-22) 8388609 (by norm_num)
      (by norm_num) (by norm_num) (by norm_num) (by norm_num) (by norm_num)]
    norm_num
  rw [scroll_f32_down_scale, h, hq, hr]
  norm_num

/-- Up event number 1 of the run that starts at scale `1.0f`. -/
theorem up_from_one_1 (w : World) (h : w.scale = 1) :
    (scroll_f32 w GdkScrollDirection.GDK_SCROLL_UP).scale = 7549747 / 8388608 := by
  have hq : (1 : ℚ) - 13421773 / 134217728 = 120795955 / 134217728 := by norm_num
  have hr : fl32 (120795955 / 134217728) = 7549747 / 8388608 := by
    rw [fl32, round_float_eval 24 (-149) (120795955 / 134217728) (-1) (-24) 15099494 (by norm_num)
      (by norm_num) (by norm_num) (by norm_num) (by norm_num) (by norm_num)]
    norm_num
  rw [scroll_f32_up_scale, h, hq, hr]
  norm_num

/-- Up event number 2 of the run that starts at scale `1.0f`. -/
theorem up_from_one_2 (w : World) (h : w.scale = 7549747 / 8388608) :
    (scroll_f32 w GdkScrollDirection.GDK_SCROLL_UP).scale = 3355443 / 4194304 := by
  have hq : (7549747 / 8388608 : ℚ) - 13421773 / 134217728 = 107374179 / 134217728 := by norm_num
  have hr : fl32 (107374179 / 134217728) = 3355443 / 4194304 := by
    rw [fl32, round_float_eval 24 (-149) (107374179 / 134217728) (-1) (-24) 13421772 (by norm_num)
      (by norm_num) (by norm_num) (by norm_num) (by norm_num) (by norm_num)]
    norm_num
  rw [scroll_f32_up_scale, h, hq, hr]
  norm_num

/-- Up event number 3 of the run that starts at scale `1.0f`. -/
theorem up_from_one_3 (w : World) (h : w.scale = 3355443 / 4194304) :
    (scroll_f32 w GdkScrollDirection.GDK_SCROLL_UP).scale = 5872025 / 8388608 := by
  have hq : (3355443 / 4194304 : ℚ) - 13421773 / 134217728 = 93952403 / 134217728 := by norm_num
  have hr : fl32 (93952403 / 134217728) = 5872025 / 8388608 := by
    rw [fl32, round_float_eval 24 (-149) (93952403 / 134217728) (-1) (-24) 11744050 (by norm_num)
      (by norm_num) (by norm_num) (by norm_num) (by norm_num) (by norm_num)]
    norm_num
  rw [scroll_f32_up_scale, h, hq, hr]
  norm_num

/-- Up event number 4 of the run that starts at scale `1.0f`. -/
theorem up_from_one_4 (w : World) (h : w.scale = 5872025 / 8388608) :
    (scroll_f32 w GdkScrollDirection.GDK_SCROLL_UP).scale = 1258291 / 2097152 := by
  have hq : (5872025 / 8388608 : ℚ) - 13421773 / 134217728 = 80530627 / 134217728 := by norm_num
  have hr : fl32 (80530627 / 134217728) = 1258291 / 2097152 := by
    rw [fl32, round_float_eval 24 (-149) (80530627 / 134217728) (-1) (-24) 10066328 (by norm_num)
      (by norm_num) (by norm_num) (by norm_num) (by norm_num) (by norm_num)]
    norm_num
  rw [scroll_f32_up_scale, h, hq, hr]
  norm_num

/-- Up event number 5 of the run that starts at scale `1.0f`. -/
theorem up_from_one_5 (w : World) (h : w.scale = 1258291 / 2097152) :
    (scroll_f32 w GdkScrollDirection.GDK_SCROLL_UP).scale = 16777213 / 33554432 := by
  have hq : (1258291 / 2097152 : ℚ) - 13421773 / 134217728 = 67108851 / 134217728 := by norm_num
  have hr : fl32 (67108851 / 134217728) = 16777213 / 33554432 := by
    rw [fl32, round_float_eval 24 (-149) (67108851 / 134217728) (-2) (-25) 16777213 (by norm_num)
      (by norm_num) (by norm_num) (by norm_num) (by norm_num) (by norm_num)]
    norm_num
  rw [scroll_f32_up_scale, h, hq, hr]
  norm_num

/-- Nineteen up events from a scale of at most `2.0f` end at most at `0.1f`. -/
theorem up_from_two_bound (w : World) (h : w.scale ≤ 2) :
    (run_scroll_f32 w (List.replicate 19 GdkScrollDirection.GDK_SCROLL_UP)).scale ≤ 13421773 / 134217728 := by
  have b1 := le_trans (scroll_f32_up_mono _ { w with scale := 2 } h)
    (le_of_eq (up_from_two_1 _ rfl))
  have b2 := le_trans (scroll_f32_up_mono _ { w with scale := 15938355 / 8388608 } b1)
    (le_of_eq (up_from_two_2 _ rfl))
  have b3 := le_trans (scroll_f32_up_mono _ { w with scale := 7549747 / 4194304 } b2)
    (le_of_eq (up_from_two_3 _ rfl))
  have b4 := le_trans (scroll_f32_up_mono _ { w with scale := 14260633 / 8388608 } b3)
    (le_of_eq (up_from_two_4 _ rfl))
  have b5 := le_trans (scroll_f32_up_mono _ { w with scale := 3355443 / 2097152 } b4)
    (le_of_eq (up_from_two_5 _ rfl))
  have b6 := le_trans (scroll_f32_up_mono _ { w with scale := 12582911 / 8388608 } b5)
    (le_of_eq (up_from_two_6 _ rfl))
  have b7 := le_trans (scroll_f32_up_mono _ { w with scale := 5872025 / 4194304 } b6)
    (le_of_eq (up_from_two_7 _ rfl))
  have b8 := le_trans (scroll_f32_up_mono _ { w with scale := 10905189 / 8388608 } b7)
    (le_of_eq (up_from_two_8 _ rfl))
  have b9 := le_trans (scroll_f32_up_mono _ { w with scale := 1258291 / 1048576 } b8)
    (le_of_eq (up_from_two_9 _ rfl))
  have b10 := le_trans (scroll_f32_up_mono _ { w with scale := 9227467 / 8388608 } b9)
    (le_of_eq (up_from_two_10 _ rfl))
  have b11 := le_trans (scroll_f32_up_mono _ { w with scale := 4194303 / 4194304 } b10)
    (le_of_eq (up_from_two_11 _ rfl))
  have b12 := le_trans (scroll_f32_up_mono _ { w with scale := 7549745 / 8388608 } b11)
    (le_of_eq (up_from_two_12 _ rfl))
  have b13 := le_trans (scroll_f32_up_mono _ { w with scale := 1677721 / 2097152 } b12)
    (le_of_eq (up_from_two_13 _ rfl))
  have b14 := le_trans (scroll_f32_up_mono _ { w with scale := 5872023 / 8388608 } b13)
    (le_of_eq (up_from_two_14 _ rfl))
  have b15 := le_trans (scroll_f32_up_mono _ { w with scale := 2516581 / 4194304 } b14)
    (le_of_eq (up_from_two_15 _ rfl))
  have b16 := le_trans (scroll_f32_up_mono _ { w with scale := 16777205 / 33554432 } b15)
    (le_of_eq (up_from_two_16 _ rfl))
  have b17 := le_trans (scroll_f32_up_mono _ { w with scale := 6710881 / 16777216 } b16)
    (le_of_eq (up_from_two_17 _ rfl))
  have b18 := le_trans (scroll_f32_up_mono _ { w with scale := 10066319 / 33554432 } b17)
    (le_of_eq (up_from_two_18 _ rfl))
  have b19 := le_trans (scroll_f32_up_mono _ { w with scale := 1677719 / 8388608 } b18)
    (le_of_eq (up_from_two_19 _ rfl))
  exact b19

/-- Nineteen down events from a scale of at least `0.1` end at least at `2.0f`. -/
theorem down_from_tenth_bound (w : World) (h : 1 / 10 ≤ w.scale) :
    2 ≤ (run_scroll_f32 w (List.replicate 19 GdkScrollDirection.GDK_SCROLL_DOWN)).scale := by
  have b1 := le_trans (ge_of_eq (down_from_tenth_1 { w with scale := 1 / 10 } rfl))
    (scroll_f32_down_mono { w with scale := 1 / 10 } _ h)
  have b2 := le_trans (ge_of_eq (down_from_tenth_2 { w with scale := 13421773 / 67108864 } rfl))
    (scroll_f32_down_mono { w with scale := 13421773 / 67108864 } _ b1)
  have b3 := le_trans (ge_of_eq (down_from_tenth_3 { w with scale := 5033165 / 16777216 } rfl))
    (scroll_f32_down_mono { w with scale := 5033165 / 16777216 } _ b2)
  have b4 := le_trans (ge_of_eq (down_from_tenth_4 { w with scale := 13421773 / 33554432 } rfl))
    (scroll_f32_down_mono { w with scale := 13421773 / 33554432 } _ b3)
  have b5 := le_trans (ge_of_eq (down_from_tenth_5 { w with scale := 1 / 2 } rfl))
    (scroll_f32_down_mono { w with scale := 1 / 2 } _ b4)
  have b6 := le_trans (ge_of_eq (down_from_tenth_6 { w with scale := 5033165 / 8388608 } rfl))
    (scroll_f32_down_mono { w with scale := 5033165 / 8388608 } _ b5)
  have b7 := le_trans (ge_of_eq (down_from_tenth_7 { w with scale := 2936013 / 4194304 } rfl))
    (scroll_f32_down_mono { w with scale := 2936013 / 4194304 } _ b6)
  have b8 := le_trans (ge_of_eq (down_from_tenth_8 { w with scale := 6710887 / 8388608 } rfl))
    (scroll_f32_down_mono { w with scale := 6710887 / 8388608 } _ b7)
  have b9 := le_trans (ge_of_eq (down_from_tenth_9 { w with scale := 1887437 / 2097152 } rfl))
    (scroll_f32_down_mono { w with scale := 1887437 / 2097152 } _ b8)
  have b10 := le_trans (ge_of_eq (down_from_tenth_10 { w with scale := 8388609 / 8388608 } rfl))
    (scroll_f32_down_mono { w with scale := 8388609 / 8388608 } _ b9)
  have b11 := le_trans (ge_of_eq (down_from_tenth_11 { w with scale := 4613735 / 4194304 } rfl))
    (scroll_f32_down_mono { w with scale := 4613735 / 4194304 } _ b10)
  have b12 := le_trans (ge_of_eq (down_from_tenth_12 { w with scale := 10066331 / 8388608 } rfl))
    (scroll_f32_down_mono { w with scale := 10066331 / 8388608 } _ b11)
  have b13 := le_trans (ge_of_eq (down_from_tenth_13 { w with scale := 1363149 / 1048576 } rfl))
    (scroll_f32_down_mono { w with scale := 1363149 / 1048576 } _ b12)
  have b14 := le_trans (ge_of_eq (down_from_tenth_14 { w with scale := 11744053 / 8388608 } rfl))
    (scroll_f32_down_mono { w with scale := 11744053 / 8388608 } _ b13)
  have b15 := le_trans (ge_of_eq (down_from_tenth_15 { w with scale := 6291457 / 4194304 } rfl))
    (scroll_f32_down_mono { w with scale := 6291457 / 4194304 } _ b14)
  have b16 := le_trans (ge_of_eq (down_from_tenth_16 { w with scale := 13421775 / 8388608 } rfl))
    (scroll_f32_down_mono { w with scale := 13421775 / 8388608 } _ b15)
  have b17 := le_trans (ge_of_eq (down_from_tenth_17 { w with scale := 3565159 / 2097152 } rfl))
    (scroll_f32_down_mono { w with scale := 3565159 / 2097152 } _ b16)
  have b18 := le_trans (ge_of_eq (down_from_tenth_18 { w with scale := 15099497 / 8388608 } rfl))
    (scroll_f32_down_mono { w with scale := 15099497 / 8388608 } _ b17)
  have b19 := le_trans (ge_of_eq (down_from_tenth_19 { w with scale := 7969179 / 4194304 } rfl))
    (scroll_f32_down_mono { w with scale := 7969179 / 4194304 } _ b18)
  exact b19

theorem run_scroll_f32_append (w : World) (ds1 ds2 : List GdkScrollDirection) :
    run_scroll_f32 w (ds1 ++ ds2) = run_scroll_f32 (run_scroll_f32 w ds1) ds2 := by
  simp [run_scroll_f32]

theorem run_scroll_f32_snoc (w : World) (n : ℕ) (d : GdkScrollDirection) :
    run_scroll_f32 w (List.replicate (n + 1) d) =
      scroll_f32 (run_scroll_f32 w (List.replicate n d)) d := by
  have h : List.replicate (n + 1) d = List.replicate n d ++ [d] := by
    rw [← List.replicate_succ']
  rw [h, run_scroll_f32_append]
  rfl

/-- At `0.1f` an up event leaves the scale at `0.1f`. -/
theorem scroll_f32_up_fixed (w : World) (h : w.scale = 13421773 / 134217728) :
    (scroll_f32 w GdkScrollDirection.GDK_SCROLL_UP).scale = 13421773 / 134217728 := by
  rw [scroll_f32_up_scale, h, sub_self, fl32_zero]
  norm_num

/-- At `2.0f` a down event leaves the scale at `2.0f`. -/
theorem scroll_f32_down_fixed (w : World) (h : w.scale = 2) :
    (scroll_f32 w GdkScrollDirection.GDK_SCROLL_DOWN).scale = 2 := by
  have hr : fl32 (281857229 / 134217728) = 4404019 / 2097152 := by
    rw [fl32, round_float_eval 24 (-149) (281857229 / 134217728) 1 (-22) 8808038 (by norm_num)
      (by norm_num) (by norm_num) (by norm_num) (by norm_num) (by norm_num)]
    norm_num
  have hq : (2 : ℚ) + 13421773 / 134217728 = 281857229 / 134217728 := by norm_num
  rw [scroll_f32_down_scale, h, hq, hr]
  norm_num

/-- Nineteen or more up events from a scale of at most `2.0f` end exactly at `0.1f`. -/
theorem run_scroll_f32_up_saturates (w : World) (h : w.scale ≤ 2) (m : ℕ) :
    (run_scroll_f32 w (List.replicate (19 + m) GdkScrollDirection.GDK_SCROLL_UP)).scale =
      13421773 / 134217728 := by
  induction m with
  | zero =>
    apply le_antisymm (up_from_two_bound w h)
    have h18 : List.replicate 19 GdkScrollDirection.GDK_SCROLL_UP =
      List.replicate (18 + 1) GdkScrollDirection.GDK_SCROLL_UP := rfl
    rw [h18, run_scroll_f32_snoc]
    exact (scroll_f32_up_range _).1
  | succ m ih =>
    rw [← Nat.add_assoc, run_scroll_f32_snoc]
    exact scroll_f32_up_fixed _ ih

/-- Nineteen or more down events from a scale of at least `0.1` end exactly at `2.0f`. -/
theorem run_scroll_f32_down_saturates (w : World) (h : 1 / 10 ≤ w.scale) (m : ℕ) :
    (run_scroll_f32 w (List.replicate (19 + m) GdkScrollDirection.GDK_SCROLL_DOWN)).scale = 2 := by
  induction m with
  | zero =>
    apply le_antisymm _ (down_from_tenth_bound w h)
    have h18 : List.replicate 19 GdkScrollDirection.GDK_SCROLL_DOWN =
      List.replicate (18 + 1) GdkScrollDirection.GDK_SCROLL_DOWN := rfl
    rw [h18, run_scroll_f32_snoc]
    exact (scroll_f32_down_range _).2
  | succ m ih =>
    rw [← Nat.add_assoc, run_scroll_f32_snoc]
    exact scroll_f32_down_fixed _ ih

/-- Five up events from the initial scale `1.0f`. -/
theorem five_ups_f32 :
    (run_scroll_f32 initial_world (List.replicate 5 GdkScrollDirection.GDK_SCROLL_UP)).scale =
      16777213 / 33554432 := by
  have h0 : initial_world.scale = 1 := by norm_num [initial_world]
  have h1 := up_from_one_1 initial_world h0
  have h2 := up_from_one_2 _ h1
  have h3 := up_from_one_3 _ h2
  have h4 := up_from_one_4 _ h3
  exact up_from_one_5 _ h4

/-- The value `0.1f` is a `float`: rounding returns it. -/
theorem fl32_of_tenth : fl32 (13421773 / 134217728) = 13421773 / 134217728 := by
  have h : (13421773 / 134217728 : ℚ) = ((13421773 : ℤ) : ℚ) * 2 ^ (-27 : ℤ) := by norm_num
  rw [h, fl32, round_float_exact 24 (-149) 13421773 (-27) (by norm_num) (by norm_num)]

theorem fl32_of_two : fl32 2 = 2 := by
  have h := fl32_two
  norm_num at h
  exact h

/-! ## C7 — saturation of the scale -/

/-- C7 (as stated, refuted): in the start state the scale is `1.0`.  One up event
stores `7549747 / 8388608`, not `max 0.1 (1.0 - 0.1) = 0.9`; five up events store
`16777213 / 33554432`, not `0.5`.  The code subtracts the `float` `0.1f` and
rounds each difference to `float`. -/
theorem five_ups_f32_not_half :
    initial_world.scale = 1.0 ∧
    (scroll_f32 initial_world GdkScrollDirection.GDK_SCROLL_UP).scale = 7549747 / 8388608 ∧
    (scroll_f32 initial_world GdkScrollDirection.GDK_SCROLL_UP).scale ≠
      max 0.1 (initial_world.scale - 0.1) ∧
    (run_scroll_f32 initial_world (List.replicate 5 GdkScrollDirection.GDK_SCROLL_UP)).scale =
      16777213 / 33554432 ∧
    (run_scroll_f32 initial_world (List.replicate 5 GdkScrollDirection.GDK_SCROLL_UP)).scale
      ≠ 0.5 := by
  have h0 : initial_world.scale = 1 := by norm_num [initial_world]
  have h1 := up_from_one_1 initial_world h0
  refine ⟨rfl, h1, ?_, five_ups_f32, ?_⟩
  · rw [h1, h0]; norm_num
  · rw [five_ups_f32]; norm_num

/-- C7 (amended), with `0.1f = 13421773 / 134217728` the `float` nearest to 0.1
and every difference and sum rounded to `float`: for a scale `s` in `[0.1, 2.0]`
one up event yields `max 0.1f (fl32 (s - 0.1f))` and one down event yields
`min 2.0f (fl32 (s + 0.1f))`; after any `n ≥ 19` consecutive up events the scale
is exactly `0.1f`, and after any `n ≥ 19` consecutive down events it is exactly
`2.0f = 2`; five up events from the initial scale `1.0` give
`16777213 / 33554432`, which is `3 / 33554432` below `0.5`. -/
theorem scroll_f32_saturates :
    (fl32 0.1 = 13421773 / 134217728 ∧ fl32 2.0 = 2) ∧
    (∀ w : World, 0.1 ≤ w.scale → w.scale ≤ 2.0 →
      (scroll_f32 w GdkScrollDirection.GDK_SCROLL_UP).scale =
        max (fl32 0.1) (fl32 (w.scale - fl32 0.1)) ∧
      (scroll_f32 w GdkScrollDirection.GDK_SCROLL_DOWN).scale =
        min (fl32 2.0) (fl32 (w.scale + fl32 0.1))) ∧
    (∀ (w : World) (n : ℕ), 0.1 ≤ w.scale → w.scale ≤ 2.0 → 19 ≤ n →
      (run_scroll_f32 w (List.replicate n GdkScrollDirection.GDK_SCROLL_UP)).scale = fl32 0.1 ∧
      (run_scroll_f32 w (List.replicate n GdkScrollDirection.GDK_SCROLL_DOWN)).scale
        = fl32 2.0) ∧
    ((run_scroll_f32 initial_world (List.replicate 5 GdkScrollDirection.GDK_SCROLL_UP)).scale
        = 16777213 / 33554432 ∧
      (0.5 : ℚ) - 16777213 / 33554432 = 3 / 33554432) := by
  refine ⟨⟨fl32_tenth, fl32_two⟩, ?_, ?_, five_ups_f32, by norm_num⟩
  · intro w h1 h2
    rw [lit_tenth] at h1
    rw [lit_two] at h2
    rw [scroll_f32_up_scale, scroll_f32_down_scale, fl32_tenth, fl32_two]
    constructor
    · have hle : fl32 (w.scale - 13421773 / 134217728) ≤ 2 := by
        have hm : fl32 (w.scale - 13421773 / 134217728) ≤ fl32 2 :=
          round_float_mono 24 (-149) (by norm_num) (by norm_num) (by linarith)
        rw [fl32_of_two] at hm
        exact hm
      rw [if_neg (not_lt.mpr hle)]
      split_ifs with c
      · rw [max_eq_left c.le]
      · rw [max_eq_right (not_lt.mp c)]
    · have hge : 13421773 / 134217728 ≤ fl32 (w.scale + 13421773 / 134217728) := by
        have hm : fl32 (13421773 / 134217728) ≤ fl32 (w.scale + 13421773 / 134217728) :=
          round_float_mono 24 (-149) (by norm_num) (by linarith) (by linarith)
        rw [fl32_of_tenth] at hm
        exact hm
      split_ifs with c1 c2
      · rw [min_eq_left c1.le]
      · exact absurd c2 (not_lt.mpr hge)
      · rw [min_eq_right (not_lt.mp c1)]
  · intro w n h1 h2 hn
    rw [lit_tenth] at h1
    rw [lit_two] at h2
    obtain ⟨m, rfl⟩ : ∃ m, n = 19 + m := ⟨n - 19, by omega⟩
    rw [fl32_tenth, fl32_two]
    exact ⟨run_scroll_f32_up_saturates w h2 m,
      run_scroll_f32_down_saturates w h1 m⟩

/-- Witness for C7 (amended): nineteen up events and nineteen down events from
the initial scale `1.0`. -/
theorem scroll_f32_saturates_witness :
    (0.1 ≤ initial_world.scale ∧ initial_world.scale ≤ 2.0 ∧ 19 ≤ 19) ∧
    (run_scroll_f32 initial_world (List.replicate 19 GdkScrollDirection.GDK_SCROLL_UP)).scale
      = fl32 0.1 ∧
    (run_scroll_f32 initial_world (List.replicate 19 GdkScrollDirection.GDK_SCROLL_DOWN)).scale
      = fl32 2.0 :=
  ⟨⟨by norm_num [initial_world], by norm_num [initial_world], le_refl 19⟩,
    scroll_f32_saturates.2.2.1 initial_world 19
      (by norm_num [initial_world]) (by norm_num [initial_world]) (le_refl 19)⟩

/-! ## The drag step in binary32 -/

theorem while_lt_zero_f32_nonneg (fuel : ℕ) {a : ℚ} (h : 0 ≤ a) :
    while_lt_zero_f32 fuel a = some a := by
  unfold while_lt_zero_f32
  rw [if_neg (not_lt.mpr h)]

theorem while_lt_zero_f32_neg (fuel : ℕ) {a : ℚ} (h : a < 0) :
    while_lt_zero_f32 (fuel + 1) a = while_lt_zero_f32 fuel (fl32 (a + 360)) := by
  conv_lhs => unfold while_lt_zero_f32
  rw [if_pos h, fl32_360]

theorem while_gt_360_f32_le (fuel : ℕ) {a : ℚ} (h : a ≤ 360) :
    while_gt_360_f32 fuel a = some a := by
  unfold while_gt_360_f32
  rw [fl32_360, if_neg (not_lt.mpr h)]

theorem while_gt_360_f32_gt (fuel : ℕ) {a : ℚ} (h : 360 < a) :
    while_gt_360_f32 (fuel + 1) a = while_gt_360_f32 fuel (fl32 (a - 360)) := by
  conv_lhs => unfold while_gt_360_f32
  rw [fl32_360, if_pos h]

theorem while_gt_360_f32_out_of_fuel {a : ℚ} (h : 360 < a) :
    while_gt_360_f32 0 a = none := by
  unfold while_gt_360_f32
  rw [fl32_360, if_pos h]

/-- A multiple of `2^-j` of magnitude below `2^prec / 2^j` is representable. -/
theorem round_float_grid (prec : ℕ) (emin : ℤ) (j : ℕ) (hj : emin ≤ -(j : ℤ)) (v : ℚ)
    (hg : ∃ n : ℤ, v = (n : ℚ) / 2 ^ j) (hb : |v| < 2 ^ prec / 2 ^ j) :
    round_float prec emin v = v := by
  obtain ⟨n, rfl⟩ := hg
  have hpos : (0:ℚ) < 2 ^ j := pow_pos (by norm_num) j
  have hn : |n| < 2 ^ prec := by
    rw [abs_div, abs_of_pos hpos, div_lt_div_iff_of_pos_right hpos] at hb
    exact_mod_cast hb
  have hv : (n : ℚ) / 2 ^ j = (n : ℚ) * 2 ^ (-(j : ℤ)) := by
    rw [zpow_neg, zpow_natCast, div_eq_mul_inv]
  rw [hv]
  exact round_float_exact prec emin n (-(j : ℤ)) hn hj

/-- For `j ≤ 15` the bound `2^24 / 2^j` exceeds 360. -/
theorem grid_bound_gt_360 (j : ℕ) (hj : j ≤ 15) : (360 : ℚ) < 2 ^ 24 / 2 ^ j := by
  have hpos : (0:ℚ) < 2 ^ j := pow_pos (by norm_num) j
  have h15 : (2:ℚ) ^ j ≤ 2 ^ 15 := pow_le_pow_right₀ (by norm_num) hj
  rw [lt_div_iff₀ hpos]
  calc (360 : ℚ) * 2 ^ j ≤ 360 * 2 ^ 15 := by linarith
    _ < 2 ^ 24 := by norm_num

theorem grid_add {j : ℕ} {a b : ℚ} (ha : ∃ n : ℤ, a = (n : ℚ) / 2 ^ j)
    (hb : ∃ n : ℤ, b = (n : ℚ) / 2 ^ j) : ∃ n : ℤ, a + b = (n : ℚ) / 2 ^ j := by
  obtain ⟨n, rfl⟩ := ha
  obtain ⟨m, rfl⟩ := hb
  exact ⟨n + m, by push_cast; ring⟩

theorem grid_neg {j : ℕ} {a : ℚ} (ha : ∃ n : ℤ, a = (n : ℚ) / 2 ^ j) :
    ∃ n : ℤ, -a = (n : ℚ) / 2 ^ j := by
  obtain ⟨n, rfl⟩ := ha
  exact ⟨-n, by push_cast; ring⟩

theorem grid_int (j : ℕ) (c : ℤ) : ∃ n : ℤ, (c : ℚ) = (n : ℚ) / 2 ^ j := by
  have hpos : (0:ℚ) < 2 ^ j := pow_pos (by norm_num) j
  exact ⟨c * 2 ^ j, by push_cast; field_simp⟩

/-- On multiples of `2^-j` below `2^24 / 2^j` the first `float` loop computes what
the exact loop computes, once it is given enough passes; the value it leaves is
again such a multiple. -/
theorem while_lt_zero_f32_exact (j : ℕ) (hj : j ≤ 15) (a : ℚ) :
    (∃ n : ℤ, a = (n : ℚ) / 2 ^ j) → |a| < 2 ^ 24 / 2 ^ j →
    (∃ N : ℕ, ∀ fuel : ℕ, N ≤ fuel → while_lt_zero_f32 fuel a = some (while_lt_zero a)) ∧
    (∃ n : ℤ, while_lt_zero a = (n : ℚ) / 2 ^ j) ∧ |while_lt_zero a| < 2 ^ 24 / 2 ^ j := by
  have hB := grid_bound_gt_360 j hj
  induction a using while_lt_zero.induct with
  | case1 a h ih =>
    intro hg hb
    have h0 : a < 0 := h
    have hb' := abs_lt.mp hb
    have hg' : ∃ n : ℤ, a + 360 = (n : ℚ) / 2 ^ j := by
      have := grid_add hg (grid_int j 360)
      simpa using this
    have hb2 : |a + 360| < 2 ^ 24 / 2 ^ j := abs_lt.mpr ⟨by linarith, by linarith⟩
    have e360 : a + 360.0 = a + 360 := by norm_num
    rw [e360] at ih
    obtain ⟨⟨N, hN⟩, hg2, hb3⟩ := ih hg' hb2
    rw [while_lt_zero_neg h0]
    refine ⟨⟨N + 1, ?_⟩, hg2, hb3⟩
    intro fuel hfuel
    obtain ⟨f, rfl⟩ : ∃ f, fuel = f + 1 := ⟨fuel - 1, by omega⟩
    rw [while_lt_zero_f32_neg f h0]
    have hx : fl32 (a + 360) = a + 360 :=
      round_float_grid 24 (-149) j (by omega) (a + 360) hg' hb2
    rw [hx]
    exact hN f (by omega)
  | case2 a h =>
    intro hg hb
    have h0 : 0 ≤ a := not_lt.mp h
    rw [while_lt_zero_nonneg h0]
    exact ⟨⟨0, fun fuel _ => while_lt_zero_f32_nonneg fuel h0⟩, hg, hb⟩

/-- The same for the second loop. -/
theorem while_gt_360_f32_exact (j : ℕ) (hj : j ≤ 15) (a : ℚ) :
    (∃ n : ℤ, a = (n : ℚ) / 2 ^ j) → |a| < 2 ^ 24 / 2 ^ j →
    ∃ N : ℕ, ∀ fuel : ℕ, N ≤ fuel → while_gt_360_f32 fuel a = some (while_gt_360 a) := by
  induction a using while_gt_360.induct with
  | case1 a h ih =>
    intro hg hb
    have h0 : 360 < a := by norm_num at h; exact h
    have hb' := abs_lt.mp hb
    have hg' : ∃ n : ℤ, a - 360 = (n : ℚ) / 2 ^ j := by
      have := grid_add hg (grid_int j (-360))
      simpa [sub_eq_add_neg] using this
    have hb2 : |a - 360| < 2 ^ 24 / 2 ^ j := abs_lt.mpr ⟨by linarith, by linarith⟩
    have e360 : a - 360.0 = a - 360 := by norm_num
    rw [e360] at ih
    obtain ⟨N, hN⟩ := ih hg' hb2
    rw [while_gt_360_gt h0]
    refine ⟨N + 1, ?_⟩
    intro fuel hfuel
    obtain ⟨f, rfl⟩ : ∃ f, fuel = f + 1 := ⟨fuel - 1, by omega⟩
    rw [while_gt_360_f32_gt f h0]
    have hx : fl32 (a - 360) = a - 360 :=
      round_float_grid 24 (-149) j (by omega) (a - 360) hg' hb2
    rw [hx]
    exact hN f (by omega)
  | case2 a h =>
    intro hg hb
    have h0 : a ≤ 360 := by norm_num at h; exact h
    rw [while_gt_360_le h0]
    exact ⟨0, fun fuel _ => while_gt_360_f32_le fuel h0⟩

/-- On multiples of `2^-j` below `2^24 / 2^j` the two `float` loops compute what the
exact loops compute, once they are given enough passes. -/
theorem normalize_f32_exact (j : ℕ) (hj : j ≤ 15) (a : ℚ)
    (hg : ∃ n : ℤ, a = (n : ℚ) / 2 ^ j) (hb : |a| < 2 ^ 24 / 2 ^ j) :
    ∃ N : ℕ, ∀ fuel : ℕ, N ≤ fuel → normalize_f32 fuel a = some (normalize a) := by
  obtain ⟨⟨N1, h1⟩, hg1, hb1⟩ := while_lt_zero_f32_exact j hj a hg hb
  obtain ⟨N2, h2⟩ := while_gt_360_f32_exact j hj (while_lt_zero a) hg1 hb1
  refine ⟨max N1 N2, ?_⟩
  intro fuel hfuel
  unfold normalize_f32
  rw [h1 fuel (le_trans (le_max_left _ _) hfuel)]
  exact h2 fuel (le_trans (le_max_right _ _) hfuel)

/-- The value a drag step hands to the loops, `(float)((double)a + (double)d)`,
is `a + d` itself when `a` in `[0, 360]` and `d` are multiples of `2^-j` and
`a + d` is below `2^24 / 2^j`. -/
theorem drag_sum_exact (j : ℕ) (hj : j ≤ 15) (a d : ℚ) (ha0 : 0 ≤ a) (ha1 : a ≤ 360)
    (hga : ∃ n : ℤ, a = (n : ℚ) / 2 ^ j) (hgd : ∃ n : ℤ, d = (n : ℚ) / 2 ^ j)
    (hb : |a + d| < 2 ^ 24 / 2 ^ j) :
    fl32 (fl64 (a + fl64 d)) = a + d := by
  have hB := grid_bound_gt_360 j hj
  have hpos : (0:ℚ) < 2 ^ j := pow_pos (by norm_num) j
  have hb' := abs_lt.mp hb
  have hbig : (2:ℚ) ^ 24 / 2 ^ j + 2 ^ 24 / 2 ^ j ≤ 2 ^ 53 / 2 ^ j := by
    rw [← add_div, div_le_div_iff_of_pos_right hpos]; norm_num
  have hd : fl64 d = d :=
    round_float_grid 53 (-1074) j (by omega) d hgd (abs_lt.mpr ⟨by linarith, by linarith⟩)
  have hs : fl64 (a + d) = a + d :=
    round_float_grid 53 (-1074) j (by omega) (a + d) (grid_add hga hgd)
      (abs_lt.mpr ⟨by linarith, by linarith⟩)
  rw [hd, hs]
  exact round_float_grid 24 (-149) j (by omega) (a + d) (grid_add hga hgd) hb


theorem input_f32_first_primary (fuel : ℕ) (w : World) (e : GdkEvent)
    (hflag : w.base_flag = false) (htype : e.type = GdkEventType.GDK_MOTION_NOTIFY)
    (hmask : e.state &&& button_mask = GDK_BUTTON1_MASK) :
    input_f32 fuel w e = some { w with x := e.x, y := e.y, base_flag := true } := by
  simp [input_f32, hflag, htype, hmask]

theorem input_f32_drag_primary (fuel : ℕ) (w : World) (e : GdkEvent)
    (hflag : w.base_flag = true) (htype : e.type = GdkEventType.GDK_MOTION_NOTIFY)
    (hmask : e.state &&& button_mask = GDK_BUTTON1_MASK) :
    input_f32 fuel w e =
      (normalize_f32 fuel
        (fl32 (fl64 (w.rotation_angles Y_AXIS + fl64 (e.x - w.x))))).bind fun ry =>
      (normalize_f32 fuel
        (fl32 (fl64 (w.rotation_angles X_AXIS - fl64 (e.y - w.y))))).bind fun rx =>
      some { w with
        rotation_angles :=
          Function.update (Function.update w.rotation_angles Y_AXIS ry) X_AXIS rx
        x := e.x
        y := e.y
        calls := w.calls ++
          [GtkCall.gtk_adjustment_set_value Y_AXIS ry,
           GtkCall.gtk_adjustment_set_value X_AXIS rx,
           GtkCall.gtk_widget_queue_draw] } := by
  simp [input_f32, hflag, htype, hmask, Function.update]

theorem input_f32_drag_secondary (fuel : ℕ) (w : World) (e : GdkEvent)
    (hflag : w.base_flag = true) (htype : e.type = GdkEventType.GDK_MOTION_NOTIFY)
    (hmask : e.state &&& button_mask = GDK_BUTTON3_MASK) :
    input_f32 fuel w e =
      (normalize_f32 fuel
        (fl32 (fl64 (w.rotation_angles Z_AXIS + fl64 (e.x - w.z))))).bind fun rz =>
      some { w with
        rotation_angles := Function.update w.rotation_angles Z_AXIS rz
        z := e.x
        calls := w.calls ++
          [GtkCall.gtk_adjustment_set_value Z_AXIS rz,
           GtkCall.gtk_widget_queue_draw] } := by
  simp [input_f32, hflag, htype, hmask]

/-- On multiples of `2^-j` the binary32 drag step on the primary button returns,
given enough passes, the state the exact drag step returns. -/
theorem input_f32_primary_exact (w : World) (e : GdkEvent) (j : ℕ) (hj : j ≤ 15)
    (hflag : w.base_flag = true) (htype : e.type = GdkEventType.GDK_MOTION_NOTIFY)
    (hmask : e.state &&& button_mask = GDK_BUTTON1_MASK)
    (hrange : ∀ i, 0 ≤ w.rotation_angles i ∧ w.rotation_angles i ≤ 360)
    (hgrid : ∀ i, ∃ n : ℤ, w.rotation_angles i = (n : ℚ) / 2 ^ j)
    (hgx : ∃ n : ℤ, e.x - w.x = (n : ℚ) / 2 ^ j) (hgy : ∃ n : ℤ, e.y - w.y = (n : ℚ) / 2 ^ j)
    (hbx : |w.rotation_angles Y_AXIS + (e.x - w.x)| < 2 ^ 24 / 2 ^ j)
    (hby : |w.rotation_angles X_AXIS - (e.y - w.y)| < 2 ^ 24 / 2 ^ j) :
    ∃ N : ℕ, ∀ fuel : ℕ, N ≤ fuel → input_f32 fuel w e = some (input w e) := by
  have hY := hrange Y_AXIS
  have hX := hrange X_AXIS
  have sY := drag_sum_exact j hj (w.rotation_angles Y_AXIS) (e.x - w.x) hY.1 hY.2
    (hgrid Y_AXIS) hgx hbx
  have hby' : |w.rotation_angles X_AXIS + -(e.y - w.y)| < 2 ^ 24 / 2 ^ j := by
    rw [← sub_eq_add_neg]; exact hby
  have sX0 := drag_sum_exact j hj (w.rotation_angles X_AXIS) (-(e.y - w.y)) hX.1 hX.2
    (hgrid X_AXIS) (grid_neg hgy) hby'
  have hneg : fl64 (-(e.y - w.y)) = -(e.y - w.y) := by
    have hB := grid_bound_gt_360 j hj
    have hpos : (0:ℚ) < 2 ^ j := pow_pos (by norm_num) j
    have hb' := abs_lt.mp hby'
    have hbig : (2:ℚ) ^ 24 / 2 ^ j + 2 ^ 24 / 2 ^ j ≤ 2 ^ 53 / 2 ^ j := by
      rw [← add_div, div_le_div_iff_of_pos_right hpos]; norm_num
    exact round_float_grid 53 (-1074) j (by omega) _ (grid_neg hgy)
      (abs_lt.mpr ⟨by linarith, by linarith⟩)
  have hpos' : fl64 (e.y - w.y) = e.y - w.y := by
    have hB := grid_bound_gt_360 j hj
    have hpos : (0:ℚ) < 2 ^ j := pow_pos (by norm_num) j
    have hb' := abs_lt.mp hby
    have hbig : (2:ℚ) ^ 24 / 2 ^ j + 2 ^ 24 / 2 ^ j ≤ 2 ^ 53 / 2 ^ j := by
      rw [← add_div, div_le_div_iff_of_pos_right hpos]; norm_num
    exact round_float_grid 53 (-1074) j (by omega) _ hgy
      (abs_lt.mpr ⟨by linarith, by linarith⟩)
  have sX : fl32 (fl64 (w.rotation_angles X_AXIS - fl64 (e.y - w.y))) =
      w.rotation_angles X_AXIS - (e.y - w.y) := by
    rw [hneg, ← sub_eq_add_neg] at sX0
    rw [hpos']
    exact sX0
  obtain ⟨N1, h1⟩ := normalize_f32_exact j hj _ (grid_add (hgrid Y_AXIS) hgx) hbx
  obtain ⟨N2, h2⟩ := normalize_f32_exact j hj _
    (by simpa [sub_eq_add_neg] using grid_add (hgrid X_AXIS) (grid_neg hgy)) hby
  refine ⟨max N1 N2, ?_⟩
  intro fuel hfuel
  rw [input_f32_drag_primary fuel w e hflag htype hmask, sY, sX,
    h1 fuel (le_trans (le_max_left _ _) hfuel), h2 fuel (le_trans (le_max_right _ _) hfuel),
    input_drag_primary w e hflag htype hmask]
  rfl

/-- On multiples of `2^-j` the binary32 drag step on the secondary button returns,
given enough passes, the state the exact drag step returns. -/
theorem input_f32_secondary_exact (w : World) (e : GdkEvent) (j : ℕ) (hj : j ≤ 15)
    (hflag : w.base_flag = true) (htype : e.type = GdkEventType.GDK_MOTION_NOTIFY)
    (hmask : e.state &&& button_mask = GDK_BUTTON3_MASK)
    (hrange : ∀ i, 0 ≤ w.rotation_angles i ∧ w.rotation_angles i ≤ 360)
    (hgrid : ∀ i, ∃ n : ℤ, w.rotation_angles i = (n : ℚ) / 2 ^ j)
    (hgx : ∃ n : ℤ, e.x - w.z = (n : ℚ) / 2 ^ j)
    (hbx : |w.rotation_angles Z_AXIS + (e.x - w.z)| < 2 ^ 24 / 2 ^ j) :
    ∃ N : ℕ, ∀ fuel : ℕ, N ≤ fuel → input_f32 fuel w e = some (input w e) := by
  have hZ := hrange Z_AXIS
  have sZ := drag_sum_exact j hj (w.rotation_angles Z_AXIS) (e.x - w.z) hZ.1 hZ.2
    (hgrid Z_AXIS) hgx hbx
  obtain ⟨N1, h1⟩ := normalize_f32_exact j hj _ (grid_add (hgrid Z_AXIS) hgx) hbx
  refine ⟨N1, ?_⟩
  intro fuel hfuel
  rw [input_f32_drag_secondary fuel w e hflag htype hmask, sZ, h1 fuel hfuel,
    input_drag_secondary w e hflag htype hmask]
  rfl

/-! ### Termination of the loops in binary32 -/

theorem round_half_even_error (m : ℚ) : |(round_half_even m : ℚ) - m| ≤ 1 / 2 := by
  obtain ⟨a1, a2, a3, a4⟩ := round_half_even_bounds m
  have hf1 : (⌊m⌋ : ℚ) ≤ m := Int.floor_le m
  have hf2 : m < (⌊m⌋ : ℚ) + 1 := Int.lt_floor_add_one m
  rcases (show round_half_even m = ⌊m⌋ ∨ round_half_even m = ⌊m⌋ + 1 by omega) with h | h
  · have := a4 h
    rw [h, abs_le]
    constructor <;> linarith
  · have := a3 h
    rw [h, abs_le]
    push_cast
    constructor <;> linarith

/-- A rounding moves its argument by at most half a unit in the last place. -/
theorem round_float_error (prec : ℕ) (emin : ℤ) (q : ℚ) :
    |round_float prec emin q - q| ≤ 2 ^ ulp_exponent prec emin q / 2 := by
  have hpos := two_zpow_pos (ulp_exponent prec emin q)
  have h := round_half_even_error (q / 2 ^ ulp_exponent prec emin q)
  unfold round_float
  have e : (round_half_even (q / 2 ^ ulp_exponent prec emin q) : ℚ) *
      2 ^ ulp_exponent prec emin q - q =
      ((round_half_even (q / 2 ^ ulp_exponent prec emin q) : ℚ) -
        q / 2 ^ ulp_exponent prec emin q) * 2 ^ ulp_exponent prec emin q := by
    field_simp
  rw [e, abs_mul, abs_of_pos hpos]
  calc |(round_half_even (q / 2 ^ ulp_exponent prec emin q) : ℚ) -
        q / 2 ^ ulp_exponent prec emin q| * 2 ^ ulp_exponent prec emin q
      ≤ 1 / 2 * 2 ^ ulp_exponent prec emin q := mul_le_mul_of_nonneg_right h hpos.le
    _ = 2 ^ ulp_exponent prec emin q / 2 := by ring

/-- Below `2^33` a binary32 rounding moves its argument by at most 256. -/
theorem fl32_error_below_two_pow_33 (q : ℚ) (h : |q| < 2 ^ 33) : |fl32 q - q| ≤ 256 := by
  have he : ulp_exponent 24 (-149) q ≤ 9 := by
    unfold ulp_exponent
    apply max_le _ (by norm_num)
    rcases eq_or_ne q 0 with h0 | h0
    · subst h0; simp
    · have hq : 0 < |q| := abs_pos.mpr h0
      have hl : Int.log 2 |q| < 33 := by
        rw [← Int.lt_zpow_iff_log_lt (by norm_num) hq]
        have : ((2 : ℕ) : ℚ) ^ (33 : ℤ) = 2 ^ 33 := by norm_num
        rw [this]; exact h
      push_cast
      omega
  have hz : (2:ℚ) ^ ulp_exponent 24 (-149) q ≤ 2 ^ (9 : ℤ) :=
    zpow_le_zpow_right₀ (by norm_num) he
  have h9 : (2:ℚ) ^ (9 : ℤ) = 512 := by norm_num
  have := round_float_error 24 (-149) q
  unfold fl32
  linarith

/-- The first loop exits on every value above `-2^33`. -/
theorem while_lt_zero_f32_terminates (k : ℕ) :
    ∀ v : ℚ, -(104 * (k : ℚ)) ≤ v → -(2 ^ 33) < v →
    ∃ (N : ℕ) (r : ℚ), 0 ≤ r ∧ (v < 0 → r ≤ 360) ∧ (0 ≤ v → r = v) ∧
      ∀ fuel : ℕ, N ≤ fuel → while_lt_zero_f32 fuel v = some r := by
  induction k with
  | zero =>
    intro v hk _
    have h0 : 0 ≤ v := by simpa using hk
    exact ⟨0, v, h0, fun h => absurd h (not_lt.mpr h0), fun _ => rfl,
      fun fuel _ => while_lt_zero_f32_nonneg fuel h0⟩
  | succ k ih =>
    intro v hk hv
    rcases le_or_lt 0 v with h0 | h0
    · exact ⟨0, v, h0, fun h => absurd h (not_lt.mpr h0), fun _ => rfl,
        fun fuel _ => while_lt_zero_f32_nonneg fuel h0⟩
    · have herr := abs_le.mp (fl32_error_below_two_pow_33 (v + 360)
        (abs_lt.mpr ⟨by linarith, by linarith⟩))
      have hup : fl32 (v + 360) ≤ 360 := by
        have hm : fl32 (v + 360) ≤ fl32 360 :=
          round_float_mono 24 (-149) (by norm_num) (by norm_num) (by linarith)
        have h360 := fl32_360
        norm_num at h360
        rw [h360] at hm
        exact hm
      push_cast at hk
      obtain ⟨N, r, hr0, hr1, hr2, hN⟩ :=
        ih (fl32 (v + 360)) (by linarith [herr.1]) (by linarith [herr.1])
      refine ⟨N + 1, r, hr0, fun _ => ?_, fun h => absurd h (not_le.mpr h0), ?_⟩
      · rcases lt_or_le (fl32 (v + 360)) 0 with c | c
        · exact hr1 c
        · rw [hr2 c]; exact hup
      · intro fuel hfuel
        obtain ⟨f, rfl⟩ : ∃ f, fuel = f + 1 := ⟨fuel - 1, by omega⟩
        rw [while_lt_zero_f32_neg f h0]
        exact hN f (by omega)

/-- The second loop exits on every value from `0` to below `2^33`, with a result
in `[0, 360]`. -/
theorem while_gt_360_f32_terminates (k : ℕ) :
    ∀ v : ℚ, v ≤ 360 + 104 * (k : ℚ) → 0 ≤ v → v < 2 ^ 33 →
    ∃ (N : ℕ) (r : ℚ), 0 ≤ r ∧ r ≤ 360 ∧
      ∀ fuel : ℕ, N ≤ fuel → while_gt_360_f32 fuel v = some r := by
  induction k with
  | zero =>
    intro v hk h0 _
    have h1 : v ≤ 360 := by simpa using hk
    exact ⟨0, v, h0, h1, fun fuel _ => while_gt_360_f32_le fuel h1⟩
  | succ k ih =>
    intro v hk h0 hv
    rcases le_or_lt v 360 with h1 | h1
    · exact ⟨0, v, h0, h1, fun fuel _ => while_gt_360_f32_le fuel h1⟩
    · have herr := abs_le.mp (fl32_error_below_two_pow_33 (v - 360)
        (abs_lt.mpr ⟨by linarith, by linarith⟩))
      have hnn : 0 ≤ fl32 (v - 360) := round_float_nonneg 24 (-149) (by linarith)
      push_cast at hk
      obtain ⟨N, r, hr0, hr1, hN⟩ :=
        ih (fl32 (v - 360)) (by linarith [herr.2]) hnn (by linarith [herr.2])
      refine ⟨N + 1, r, hr0, hr1, fun fuel hfuel => ?_⟩
      obtain ⟨f, rfl⟩ : ∃ f, fuel = f + 1 := ⟨fuel - 1, by omega⟩
      rw [while_gt_360_f32_gt f h1]
      exact hN f (by omega)

/-- On every value below `2^33` in magnitude both loops exit, and they leave a
value in `[0, 360]`. -/
theorem normalize_f32_terminates (v : ℚ) (hv : |v| < 2 ^ 33) :
    ∃ (N : ℕ) (r : ℚ), 0 ≤ r ∧ r ≤ 360 ∧
      ∀ fuel : ℕ, N ≤ fuel → normalize_f32 fuel v = some r := by
  have hv' := abs_lt.mp hv
  obtain ⟨k1, hk1⟩ := exists_nat_ge (-v / 104)
  have hk1' : -(104 * (k1 : ℚ)) ≤ v := by
    have := (div_le_iff₀ (by norm_num : (0:ℚ) < 104)).mp hk1
    linarith
  obtain ⟨N1, r1, hr0, hr1, hr2, h1⟩ := while_lt_zero_f32_terminates k1 v hk1' hv'.1
  have hr1_lt : r1 < 2 ^ 33 := by
    rcases lt_or_le v 0 with c | c
    · have := hr1 c; linarith
    · rw [hr2 c]; exact hv'.2
  obtain ⟨k2, hk2⟩ := exists_nat_ge ((r1 - 360) / 104)
  have hk2' : r1 ≤ 360 + 104 * (k2 : ℚ) := by
    have := (div_le_iff₀ (by norm_num : (0:ℚ) < 104)).mp hk2
    linarith
  obtain ⟨N2, r2, hs0, hs1, h2⟩ := while_gt_360_f32_terminates k2 r1 hk2' hr0 hr1_lt
  refine ⟨max N1 N2, r2, hs0, hs1, fun fuel hfuel => ?_⟩
  unfold normalize_f32
  rw [h1 fuel (le_trans (le_max_left _ _) hfuel)]
  exact h2 fuel (le_trans (le_max_right _ _) hfuel)

theorem fl64_zero : fl64 0 = 0 := by
  simp [fl64, round_float, round_half_even]

theorem fl64_int (n : ℤ) (h : |n| < 2 ^ 53) : fl64 (n : ℚ) = (n : ℚ) := by
  have e : (n : ℚ) = (n : ℚ) * 2 ^ (0 : ℤ) := by simp
  rw [e, fl64, round_float_exact 53 (-1074) n 0 h (by norm_num)]

/-- In binary32, `2^34 - 360` rounds back to `2^34`: the last place of `2^34` is `2048`. -/
theorem fl32_two_pow_34_sub_360 : fl32 (17179869184 - 360) = 17179869184 := by
  have hq : (17179869184 : ℚ) - 360 = 17179868824 := by norm_num
  rw [hq, fl32, round_float_eval 24 (-149) 17179868824 33 10 16777216 (by norm_num)
    (by norm_num) (by norm_num) (by norm_num) (by norm_num) (by norm_num)]
  norm_num

theorem fl32_two_pow_34 : fl32 17179869184 = 17179869184 := by
  have e : (17179869184 : ℚ) = ((8388608 : ℤ) : ℚ) * 2 ^ (11 : ℤ) := by norm_num
  rw [e, fl32, round_float_exact 24 (-149) 8388608 11 (by norm_num) (by norm_num)]

/-- The second loop never exits at `2^34`: however many passes it is given, the
guard still holds. -/
theorem while_gt_360_f32_hangs (fuel : ℕ) : while_gt_360_f32 fuel 17179869184 = none := by
  induction fuel with
  | zero => exact while_gt_360_f32_out_of_fuel (by norm_num)
  | succ f ih =>
    rw [while_gt_360_f32_gt f (by norm_num), fl32_two_pow_34_sub_360]
    exact ih

theorem normalize_f32_hangs (fuel : ℕ) : normalize_f32 fuel 17179869184 = none := by
  unfold normalize_f32
  rw [while_lt_zero_f32_nonneg fuel (by norm_num)]
  exact while_gt_360_f32_hangs fuel

theorem normalize_f32_in_range (fuel : ℕ) {a : ℚ} (h0 : 0 ≤ a) (h1 : a ≤ 360) :
    normalize_f32 fuel a = some a := by
  unfold normalize_f32
  rw [while_lt_zero_f32_nonneg fuel h0]
  exact while_gt_360_f32_le fuel h1

/-- In binary32, `1 + 2^-30` rounds to `1`. -/
theorem fl32_one_plus : fl32 (1073741825 / 1073741824) = 1 := by
  rw [fl32, round_float_eval 24 (-149) (1073741825 / 1073741824) 0 (-23) 8388608 (by norm_num)
    (by norm_num) (by norm_num) (by norm_num) (by norm_num) (by norm_num)]
  norm_num

/-- The value `1 + 2^-30` is a `double`. -/
theorem fl64_one_plus : fl64 (1073741825 / 1073741824) = 1073741825 / 1073741824 := by
  have e : (1073741825 / 1073741824 : ℚ) = ((1073741825 : ℤ) : ℚ) * 2 ^ (-30 : ℤ) := by
    norm_num
  rw [e, fl64, round_float_exact 53 (-1074) 1073741825 (-30) (by norm_num) (by norm_num)]

/-! ## C5 — the loops exit, and the stored angle is congruent modulo 360 -/

/-- C5 (as stated, refuted), in the state that follows a first primary-button
sample at `(0, 0)` out of the start state (all angles `0`, anchor `(0, 0)`).
(1) A sample at `(2^34, 0)`: the step stores `2^34` in the `float`; `2^34 - 360.0f`
rounds back to `2^34`, so the second loop never exits, whatever number of passes
it is allowed.  (2) A sample at `(1 + 2^-30, 0)`: the step stores `1`, and `1`
does not differ from `0 + (1 + 2^-30)` by an integer multiple of 360. -/
theorem drag_f32_hangs_and_rounds :
    (dragging_world.base_flag = true ∧ dragging_world.rotation_angles Y_AXIS = 0 ∧
      dragging_world.x = 0) ∧
    (∀ fuel : ℕ, input_f32 fuel dragging_world (motion_primary 17179869184 0) = none) ∧
    (∀ fuel : ℕ, ∃ w : World,
      input_f32 fuel dragging_world (motion_primary (1073741825 / 1073741824) 0) = some w ∧
      w.rotation_angles Y_AXIS = 1 ∧
      ¬ ∃ k : ℤ, w.rotation_angles Y_AXIS =
        dragging_world.rotation_angles Y_AXIS
          + ((motion_primary (1073741825 / 1073741824) 0).x - dragging_world.x)
          + 360 * (k : ℚ)) := by
  have hflag : dragging_world.base_flag = true := by rw [dragging_world_eq]
  have hY : dragging_world.rotation_angles Y_AXIS = 0 := by
    rw [dragging_world_eq]; simp [initial_world]
  have hX : dragging_world.rotation_angles X_AXIS = 0 := by
    rw [dragging_world_eq]; simp [initial_world]
  have hx : dragging_world.x = 0 := by rw [dragging_world_eq]
  have hy : dragging_world.y = 0 := by rw [dragging_world_eq]
  refine ⟨⟨hflag, hY, hx⟩, ?_, ?_⟩
  · intro fuel
    rw [input_f32_drag_primary fuel dragging_world _ hflag rfl (by decide)]
    have hd : fl64 ((motion_primary 17179869184 0).x - dragging_world.x) = 17179869184 := by
      rw [hx]
      have := fl64_int 17179869184 (by norm_num)
      simpa [motion_primary] using this
    have hs : fl64 ((0 : ℚ) + 17179869184) = 17179869184 := by
      have := fl64_int 17179869184 (by norm_num)
      simpa using this
    rw [hY, hd, hs, fl32_two_pow_34, normalize_f32_hangs]
    rfl
  · intro fuel
    have hd : fl64 ((motion_primary (1073741825 / 1073741824) 0).x - dragging_world.x) =
        1073741825 / 1073741824 := by
      rw [hx]
      simpa [motion_primary] using fl64_one_plus
    have hs : fl64 ((0 : ℚ) + 1073741825 / 1073741824) = 1073741825 / 1073741824 := by
      simpa using fl64_one_plus
    have hdy : fl64 ((motion_primary (1073741825 / 1073741824) 0).y - dragging_world.y) = 0 := by
      rw [hy]
      simpa [motion_primary] using fl64_zero
    have hsy : fl32 (fl64 ((0 : ℚ) - 0)) = 0 := by
      simp [fl64_zero, fl32_zero]
    have hn1 : normalize_f32 fuel 1 = some 1 :=
      normalize_f32_in_range fuel (by norm_num) (by norm_num)
    have hn0 : normalize_f32 fuel 0 = some 0 :=
      normalize_f32_in_range fuel (by norm_num) (by norm_num)
    rw [input_f32_drag_primary fuel dragging_world _ hflag rfl (by decide),
      hY, hX, hd, hs, hdy, hsy, fl32_one_plus, hn1, hn0]
    refine ⟨_, rfl, ?_, ?_⟩
    · simp [Function.update]
    · rintro ⟨k, hk⟩
      simp [Function.update] at hk
      rw [hx] at hk
      simp only [motion_primary] at hk
      have h2 : (386547056640 : ℚ) * (k : ℚ) = -1 := by linarith
      have h3 : (386547056640 : ℤ) * k = -1 := by exact_mod_cast h2
      omega

/-- The exact drag from the anchor `(0, 0)` to `(0, 370)` out of the start state. -/
theorem exact_drag_370 :
    (input dragging_world (motion_primary 0 370)).rotation_angles X_AXIS = 350 ∧
    (input dragging_world (motion_primary 0 370)).rotation_angles Y_AXIS = 0 := by
  rw [input_drag_primary dragging_world (motion_primary 0 370)
    (by rw [dragging_world_eq]) rfl (by decide), dragging_world_eq]
  have h350 : normalize (-370) = 350 := by
    rw [normalize, while_lt_zero_neg (by norm_num), while_lt_zero_neg (by norm_num),
      while_lt_zero_nonneg (by norm_num), while_gt_360_le (by norm_num)]
    norm_num
  have h0 : normalize 0 = 0 := normalize_id (by norm_num) (by norm_num)
  simp only [Function.update, initial_world, motion_primary]
  norm_num
  exact ⟨h350, h0⟩

theorem dragging_world_facts :
    dragging_world.base_flag = true ∧
    (∀ i, 0 ≤ dragging_world.rotation_angles i ∧ dragging_world.rotation_angles i ≤ 360) ∧
    (∀ i, ∃ n : ℤ, dragging_world.rotation_angles i = (n : ℚ) / 2 ^ 0) ∧
    dragging_world.x = 0 ∧ dragging_world.y = 0 := by
  refine ⟨by rw [dragging_world_eq], ?_, ?_, by rw [dragging_world_eq], by rw [dragging_world_eq]⟩
  · intro i; rw [dragging_world_eq]; simp [initial_world]
  · intro i; exact ⟨0, by rw [dragging_world_eq]; simp [initial_world]⟩

/-- C5 (amended), for the handler in binary32.  (1) Whenever the `float` that the
`+=` or `-=` of a drag step stores is below `2^33` in magnitude, the two loops
exit: for every number of allowed passes from some `N` on the drag step returns
a state, and the angle it stores lies in `[0, 360]`.  (2) Let moreover the
angles lie in `[0, 360]` and be multiples of `2^-j` for some `j ≤ 15`, let the
pointer deltas be multiples of `2^-j`, and let angle plus delta be below
`2^24 / 2^j` in magnitude (every sum the step forms is then exact in `float`).
Then each angle the step stores differs from angle plus delta by an integer
multiple of 360.  (3) From rotation `(0, 0, 0)`, the primary-button drag from
`(0, 0)` to `(0, 370)` leaves axis 0 at 350 and axis 1 at 0. -/
theorem drag_f32_terminates_congruent :
    (∀ (w : World) (e : GdkEvent), w.base_flag = true →
      e.type = GdkEventType.GDK_MOTION_NOTIFY →
      (e.state &&& button_mask = GDK_BUTTON1_MASK →
        |fl32 (fl64 (w.rotation_angles Y_AXIS + fl64 (e.x - w.x)))| < 2 ^ 33 →
        |fl32 (fl64 (w.rotation_angles X_AXIS - fl64 (e.y - w.y)))| < 2 ^ 33 →
        ∃ N : ℕ, ∀ fuel : ℕ, N ≤ fuel → ∃ w' : World, input_f32 fuel w e = some w' ∧
          (0 ≤ w'.rotation_angles Y_AXIS ∧ w'.rotation_angles Y_AXIS ≤ 360) ∧
          (0 ≤ w'.rotation_angles X_AXIS ∧ w'.rotation_angles X_AXIS ≤ 360)) ∧
      (e.state &&& button_mask = GDK_BUTTON3_MASK →
        |fl32 (fl64 (w.rotation_angles Z_AXIS + fl64 (e.x - w.z)))| < 2 ^ 33 →
        ∃ N : ℕ, ∀ fuel : ℕ, N ≤ fuel → ∃ w' : World, input_f32 fuel w e = some w' ∧
          (0 ≤ w'.rotation_angles Z_AXIS ∧ w'.rotation_angles Z_AXIS ≤ 360))) ∧
    (∀ (w : World) (e : GdkEvent) (j : ℕ), j ≤ 15 → w.base_flag = true →
      e.type = GdkEventType.GDK_MOTION_NOTIFY →
      (∀ i, 0 ≤ w.rotation_angles i ∧ w.rotation_angles i ≤ 360) →
      (∀ i, ∃ n : ℤ, w.rotation_angles i = (n : ℚ) / 2 ^ j) →
      (e.state &&& button_mask = GDK_BUTTON1_MASK →
        (∃ n : ℤ, e.x - w.x = (n : ℚ) / 2 ^ j) → (∃ n : ℤ, e.y - w.y = (n : ℚ) / 2 ^ j) →
        |w.rotation_angles Y_AXIS + (e.x - w.x)| < 2 ^ 24 / 2 ^ j →
        |w.rotation_angles X_AXIS - (e.y - w.y)| < 2 ^ 24 / 2 ^ j →
        ∃ N : ℕ, ∀ fuel : ℕ, N ≤ fuel → ∃ w' : World, input_f32 fuel w e = some w' ∧
          (∃ k : ℤ, w'.rotation_angles Y_AXIS =
            w.rotation_angles Y_AXIS + (e.x - w.x) + 360 * (k : ℚ)) ∧
          (∃ k : ℤ, w'.rotation_angles X_AXIS =
            w.rotation_angles X_AXIS - (e.y - w.y) + 360 * (k : ℚ))) ∧
      (e.state &&& button_mask = GDK_BUTTON3_MASK →
        (∃ n : ℤ, e.x - w.z = (n : ℚ) / 2 ^ j) →
        |w.rotation_angles Z_AXIS + (e.x - w.z)| < 2 ^ 24 / 2 ^ j →
        ∃ N : ℕ, ∀ fuel : ℕ, N ≤ fuel → ∃ w' : World, input_f32 fuel w e = some w' ∧
          ∃ k : ℤ, w'.rotation_angles Z_AXIS =
            w.rotation_angles Z_AXIS + (e.x - w.z) + 360 * (k : ℚ))) ∧
    (∃ N : ℕ, ∀ fuel : ℕ, N ≤ fuel → ∃ w1 w2 : World,
      input_f32 fuel initial_world (motion_primary 0 0) = some w1 ∧
      input_f32 fuel w1 (motion_primary 0 370) = some w2 ∧
      w2.rotation_angles X_AXIS = 350 ∧ w2.rotation_angles Y_AXIS = 0) := by
  refine ⟨?_, ?_, ?_⟩
  · intro w e hflag htype
    obtain ⟨n1, n2, n3, n4, n5, n6⟩ := axis_ne
    constructor
    · intro hmask hvy hvx
      obtain ⟨N1, r1, a0, a1, h1⟩ := normalize_f32_terminates _ hvy
      obtain ⟨N2, r2, b0, b1, h2⟩ := normalize_f32_terminates _ hvx
      refine ⟨max N1 N2, fun fuel hfuel => ?_⟩
      rw [input_f32_drag_primary fuel w e hflag htype hmask,
        h1 fuel (le_trans (le_max_left _ _) hfuel), h2 fuel (le_trans (le_max_right _ _) hfuel)]
      refine ⟨_, rfl, ?_, ?_⟩
      · simpa [Function.update, n1, n2, n3, n4, n5, n6] using And.intro a0 a1
      · simpa [Function.update, n1, n2, n3, n4, n5, n6] using And.intro b0 b1
    · intro hmask hvz
      obtain ⟨N1, r1, a0, a1, h1⟩ := normalize_f32_terminates _ hvz
      refine ⟨N1, fun fuel hfuel => ?_⟩
      rw [input_f32_drag_secondary fuel w e hflag htype hmask, h1 fuel hfuel]
      refine ⟨_, rfl, ?_⟩
      simpa [Function.update] using And.intro a0 a1
  · intro w e j hj hflag htype hrange hgrid
    constructor
    · intro hmask hgx hgy hbx hby
      obtain ⟨N, hN⟩ := input_f32_primary_exact w e j hj hflag htype hmask hrange hgrid
        hgx hgy hbx hby
      refine ⟨N, fun fuel hfuel => ⟨input w e, hN fuel hfuel, ?_⟩⟩
      rw [input_drag_primary w e hflag htype hmask]
      simp only [Function.update]
      exact ⟨by simpa using normalize_congruent (w.rotation_angles Y_AXIS + (e.x - w.x)),
        by simpa using normalize_congruent (w.rotation_angles X_AXIS - (e.y - w.y))⟩
    · intro hmask hgx hbx
      obtain ⟨N, hN⟩ := input_f32_secondary_exact w e j hj hflag htype hmask hrange hgrid
        hgx hbx
      refine ⟨N, fun fuel hfuel => ⟨input w e, hN fuel hfuel, ?_⟩⟩
      rw [input_drag_secondary w e hflag htype hmask]
      simp only [Function.update]
      simpa using normalize_congruent (w.rotation_angles Z_AXIS + (e.x - w.z))
  · obtain ⟨hflag, hrange, hgrid, hx, hy⟩ := dragging_world_facts
    have hX : dragging_world.rotation_angles X_AXIS = 0 := by
      rw [dragging_world_eq]; simp [initial_world]
    have hY : dragging_world.rotation_angles Y_AXIS = 0 := by
      rw [dragging_world_eq]; simp [initial_world]
    obtain ⟨N, hN⟩ := input_f32_primary_exact dragging_world (motion_primary 0 370) 0
      (by norm_num) hflag rfl (by decide) hrange hgrid
      ⟨0, by rw [hx]; simp [motion_primary]⟩ ⟨370, by rw [hy]; simp [motion_primary]⟩
      (by rw [hY, hx]; simp only [motion_primary]; norm_num)
      (by rw [hX, hy]; simp only [motion_primary]; norm_num [abs_lt])
    refine ⟨N, fun fuel hfuel => ⟨dragging_world, input dragging_world (motion_primary 0 370),
      ?_, hN fuel hfuel, exact_drag_370.1, exact_drag_370.2⟩⟩
    rw [input_f32_first_primary fuel initial_world (motion_primary 0 0) rfl rfl (by decide),
      dragging_world_eq]
    rfl

/-- Witness for C5 (amended): the drag from the anchor `(0, 0)` to `(0, 370)` out
of the start state, with `j = 0` (whole numbers). -/
theorem drag_f32_terminates_congruent_witness :
    ((0 : ℕ) ≤ 15 ∧ dragging_world.base_flag = true ∧
      (motion_primary 0 370).type = GdkEventType.GDK_MOTION_NOTIFY ∧
      (motion_primary 0 370).state &&& button_mask = GDK_BUTTON1_MASK) ∧
    (∃ N : ℕ, ∀ fuel : ℕ, N ≤ fuel → ∃ w' : World,
      input_f32 fuel dragging_world (motion_primary 0 370) = some w' ∧
      (∃ k : ℤ, w'.rotation_angles Y_AXIS =
        dragging_world.rotation_angles Y_AXIS + ((motion_primary 0 370).x - dragging_world.x)
          + 360 * (k : ℚ)) ∧
      (∃ k : ℤ, w'.rotation_angles X_AXIS =
        dragging_world.rotation_angles X_AXIS - ((motion_primary 0 370).y - dragging_world.y)
          + 360 * (k : ℚ))) :=
  have hf := dragging_world_facts
  have hX : dragging_world.rotation_angles X_AXIS = 0 := by
    rw [dragging_world_eq]; simp [initial_world]
  have hY : dragging_world.rotation_angles Y_AXIS = 0 := by
    rw [dragging_world_eq]; simp [initial_world]
  ⟨⟨by norm_num, hf.1, rfl, by decide⟩,
    (drag_f32_terminates_congruent.2.1 dragging_world (motion_primary 0 370) 0 (by norm_num)
      hf.1 rfl hf.2.1 hf.2.2.1).1 (by decide)
      ⟨0, by rw [hf.2.2.2.1]; simp [motion_primary]⟩
      ⟨370, by rw [hf.2.2.2.2]; simp [motion_primary]⟩
      (by rw [hY, hf.2.2.2.1]; simp only [motion_primary]; norm_num)
      (by rw [hX, hf.2.2.2.2]; simp only [motion_primary]; norm_num [abs_lt])⟩

end Glarea
